import Mathlib

/-! # SSSD responders: connection supervision and bootstrap

A shallow embedding of `src/responder/ifp/ifpsrv.c` (InfoPipe responder) and
`src/responder/ssh/sshsrv.c` (SSH responder).

Both files are glue code: almost every statement is a call into a library
(talloc, confdb, D-Bus, sbus, popt).  The embedding keeps the control flow of
each C function literally and makes the libraries explicit:

* the outcome of every library call is read from an environment record
  (one field per call site, or a function of the call's arguments);
* every library call and every `DEBUG` line is appended to a trace of
  events, in program order;
* C `int` return codes are `Int`, pointers that may be `NULL` are `Option`,
  the `be_conns` linked list is a `List`.
-/

namespace Sssd

/-! ## Constants taken from headers -/

/-- Success code, `#define EOK 0` in `util/util.h`. -/
def EOK : Int := 0

/-- Out of memory, from `errno.h`. -/
def ENOMEM : Int := 12

/-- Input/output error, from `errno.h`. -/
def EIO : Int := 5

/-- First value of `enum sssd_errors` in `util/util_errors.h`. -/
def ERR_BASE : Int := 0x555D0000

/-- The code `ERR_NO_SYSBUS` is a member of `enum sssd_errors`; the enumeration
starts at `ERR_BASE` and the position `idx` of the member differs between
releases, so it is a parameter of the whole development. -/
def ERR_NO_SYSBUS (idx : Nat) : Int := ERR_BASE + (idx : Int)

/-- Reply of `dbus_bus_request_name` when the caller became the owner, from
`dbus/dbus-shared.h`. -/
def DBUS_REQUEST_NAME_REPLY_PRIMARY_OWNER : Int := 1

/-- First member of `enum sbus_reconnect_status` in `sbus/sssd_dbus.h`. -/
def SBUS_RECONNECT_SUCCESS : Int := 1

/-- The bus name of the InfoPipe interface, `IFACE_IFP`. -/
def IFACE_IFP : String := "org.freedesktop.sssd.infopipe"

/-! ## Data model -/

/-- Severity argument of `DEBUG`. -/
inductive DebugLevel where
  | SSSDBG_FATAL_FAILURE
  | SSSDBG_CRIT_FAILURE
  | SSSDBG_OP_FAILURE
  | SSSDBG_MINOR_FAILURE
  | SSSDBG_TRACE_FUNC
  | SSSDBG_TRACE_LIBS
  deriving DecidableEq, Repr

/-- The talloc objects the two files allocate or free by name. -/
inductive Mem where
  | rctx
  | ifp_ctx
  | ssh_ctx
  | uid_str
  | attr_list_str
  | system_bus
  deriving DecidableEq, Repr

/-- The two reconnect callbacks that are handed to `sbus_reconnect_init`. -/
inductive Callback where
  | ifp_dp_reconnect_init
  | ssh_dp_reconnect_init
  deriving DecidableEq, Repr

/-- Configuration sections (`CONFDB_*_CONF_ENTRY`). -/
inductive ConfSection where
  | CONFDB_IFP_CONF_ENTRY
  | CONFDB_SSH_CONF_ENTRY
  deriving DecidableEq, Repr

/-- Configuration attributes read by the two responders. -/
inductive ConfAttr where
  | CONFDB_SERVICE_ALLOWED_UIDS
  | CONFDB_IFP_USER_ATTR_LIST
  | CONFDB_SERVICE_RECON_RETRIES
  | CONFDB_IFP_WILDCARD_LIMIT
  | CONFDB_SSH_HASH_KNOWN_HOSTS
  | CONFDB_SSH_KNOWN_HOSTS_TIMEOUT
  | CONFDB_SSH_CA_DB
  deriving DecidableEq, Repr

/-- A backend link, `struct be_conn`: the fields the two files read. -/
structure be_conn where
  /-- Handle of `be_conn->conn`. -/
  conn : Nat
  /-- The string `be_conn->domain->name`. -/
  domain : String
  /-- Handle of `be_conn->rctx`. -/
  rctx : Nat
  deriving DecidableEq, Repr

/-- The control-bus channel, `struct sysbus_ctx`. -/
structure sysbus_ctx where
  /-- Handle of `system_bus->conn`, written by `sbus_init_connection`. -/
  conn : Nat
  deriving DecidableEq, Repr

/-- The InfoPipe private context, `struct ifp_ctx`. -/
structure ifp_ctx where
  /-- Whether `snctx` has been set by `sss_names_init_from_args`. -/
  snctx : Bool
  user_whitelist : Option (List String)
  wildcard_limit : Nat
  /-- The control bus; `none` is the C `NULL`. -/
  sysbus : Option sysbus_ctx
  deriving DecidableEq, Repr

/-- The SSH private context, `struct ssh_ctx`. -/
structure ssh_ctx where
  snctx : Bool
  hash_known_hosts : Bool
  known_hosts_timeout : Int
  ca_db : Option String
  deriving DecidableEq, Repr

/-- The `void *pvt_ctx` member of `struct resp_ctx`. -/
inductive pvt_ctx_t where
  | NULL
  | ifp (c : ifp_ctx)
  | ssh (c : ssh_ctx)
  deriving DecidableEq, Repr

/-- The responder context, `struct resp_ctx`: the fields the two files use. -/
structure resp_ctx where
  /-- The linked list `rctx->be_conns`, head first. -/
  be_conns : List be_conn
  /-- The array `allowed_uids`; `allowed_uids_count` is its length. -/
  allowed_uids : List Nat
  pvt_ctx : pvt_ctx_t
  deriving DecidableEq, Repr

/-- One observable step: a library call with the arguments that matter, or a
`DEBUG` line with its formatted message. -/
inductive Ev where
  | DEBUG (level : DebugLevel) (msg : String)
  | talloc_zero (obj : Mem)
  | talloc_free (obj : Mem)
  | sss_process_init (svc_name : String)
  | sss_names_init_from_args (re : String) (fq_fmt : String)
  | confdb_get_string (sec : ConfSection) (attr : ConfAttr)
  | confdb_get_int (sec : ConfSection) (attr : ConfAttr) (dflt : Int)
  | confdb_get_bool (sec : ConfSection) (attr : ConfAttr)
  | csv_string_to_uid_array (csv : Option String)
  | ifp_parse_user_attr_list (csv : Option String)
  | strtouint32 (nptr : String)
  | sbus_reconnect_init (conn : Nat) (max_retries : Int) (cb : Callback) (pvt : be_conn)
  | dbus_error_init
  | dbus_bus_get
  | dbus_connection_set_exit_on_disconnect (conn : Nat)
  | dbus_bus_request_name (conn : Nat) (name : String)
  | sbus_init_connection (conn : Nat)
  | ifp_register_sbus_interface (sconn : Nat)
  | ifp_register_nodes (sconn : Nat)
  | dbus_error_free
  | dbus_connection_unref (conn : Nat)
  | schedule_get_domains_task
  | sbus_request_return_and_finish (dbus_req : Nat)
  | rdp_register_client (be : be_conn) (name : String)
  | handle_requests_after_reconnect (rctx : Nat)
  | umask
  | poptGetContext
  | poptGetNextOpt
  | fprintf_invalid_option
  | poptPrintUsage
  | poptFreeContext
  | DEBUG_INIT
  | server_setup (name : String)
  | die_if_parent_died
  | server_loop
  deriving DecidableEq, Repr

/-! ## Reconnect callbacks -/

namespace Ifp

/-- The callback `ifp_dp_reconnect_init` of `ifpsrv.c`.  The argument
`rdp_register_client` is the value the handshake returns if it is made. -/
def ifp_dp_reconnect_init (status : Int) (be : be_conn) (rdp_register_client : Int) :
    List Ev :=
  if status = SBUS_RECONNECT_SUCCESS then
    if rdp_register_client = EOK then
      [Ev.DEBUG .SSSDBG_TRACE_FUNC "Reconnected to the Data Provider.\n",
       Ev.rdp_register_client be "InfoPipe",
       Ev.handle_requests_after_reconnect be.rctx]
    else
      [Ev.DEBUG .SSSDBG_TRACE_FUNC "Reconnected to the Data Provider.\n",
       Ev.rdp_register_client be "InfoPipe",
       Ev.DEBUG .SSSDBG_FATAL_FAILURE
         ("Could not reconnect to " ++ be.domain ++ " provider.\n")]
  else
    [Ev.DEBUG .SSSDBG_FATAL_FAILURE
       ("Could not reconnect to " ++ be.domain ++ " provider.\n")]

end Ifp

namespace Ssh

/-- The callback `ssh_dp_reconnect_init` of `sshsrv.c`. -/
def ssh_dp_reconnect_init (status : Int) (be : be_conn) (rdp_register_client : Int) :
    List Ev :=
  if status = SBUS_RECONNECT_SUCCESS then
    if rdp_register_client = EOK then
      [Ev.DEBUG .SSSDBG_TRACE_FUNC "Reconnected to the Data Provider.\n",
       Ev.rdp_register_client be "SSH",
       Ev.handle_requests_after_reconnect be.rctx]
    else
      [Ev.DEBUG .SSSDBG_TRACE_FUNC "Reconnected to the Data Provider.\n",
       Ev.rdp_register_client be "SSH",
       Ev.DEBUG .SSSDBG_FATAL_FAILURE
         ("Could not reconnect to " ++ be.domain ++ " provider.\n")]
  else
    [Ev.DEBUG .SSSDBG_FATAL_FAILURE
       ("Could not reconnect to " ++ be.domain ++ " provider.\n")]

end Ssh

/-! ## Control bus bring-up -/

/-- Outcomes of the library calls made by `sysbus_init`. -/
structure SysbusEnv where
  /-- Whether `talloc_zero(mem_ctx, struct sysbus_ctx)` is non-NULL. -/
  talloc_zero : Bool
  /-- The connection returned by `dbus_bus_get`, `none` for `NULL`. -/
  dbus_bus_get : Option Nat
  dbus_bus_request_name : Int
  /-- Return code and the `sbus_connection` stored in `system_bus->conn`. -/
  sbus_init_connection : Int × Nat
  ifp_register_sbus_interface : Int
  /-- What `dbus_error_is_set` answers at the `fail` label. -/
  dbus_error_is_set : Bool

/-- What `sysbus_init` leaves behind. -/
structure SysbusResult where
  ret : Int
  /-- The caller's `*sysbus` after the call. -/
  sysbus : Option sysbus_ctx
  trace : List Ev
  deriving DecidableEq, Repr

/-- The `fail:` label of `sysbus_init`; `conn` is the local `conn`. -/
def sysbus_init_fail (w : SysbusEnv) (ret : Int) (conn : Option Nat)
    (sysbus : Option sysbus_ctx) (t : List Ev) : SysbusResult :=
  let t1 :=
    if w.dbus_error_is_set then
      t ++ [Ev.DEBUG .SSSDBG_OP_FAILURE "DBus error message: %s\n", Ev.dbus_error_free]
    else t
  let t2 :=
    match conn with
    | some c => t1 ++ [Ev.dbus_connection_unref c]
    | none => t1
  { ret := ret, sysbus := sysbus, trace := t2 ++ [Ev.talloc_free .system_bus] }

/-- The function `sysbus_init` of `ifpsrv.c`.  The argument `sysbus` is the
value of `*sysbus` on entry; it is overwritten only on the success path. -/
def sysbus_init (idx : Nat) (w : SysbusEnv) (dbus_name : String)
    (sysbus : Option sysbus_ctx) : SysbusResult :=
  let t0 := [Ev.talloc_zero .system_bus]
  if w.talloc_zero = false then
    { ret := ENOMEM, sysbus := sysbus, trace := t0 }
  else
    let t1 := t0 ++ [Ev.dbus_error_init, Ev.dbus_bus_get]
    match w.dbus_bus_get with
    | none =>
      sysbus_init_fail w (ERR_NO_SYSBUS idx) none sysbus
        (t1 ++ [Ev.DEBUG .SSSDBG_CRIT_FAILURE
                  "Failed to connect to D-BUS system bus: [%s]\n"])
    | some conn =>
      let t2 := t1 ++ [Ev.dbus_connection_set_exit_on_disconnect conn,
                       Ev.dbus_bus_request_name conn dbus_name]
      if w.dbus_bus_request_name ≠ DBUS_REQUEST_NAME_REPLY_PRIMARY_OWNER then
        sysbus_init_fail w EIO (some conn) sysbus
          (t2 ++ [Ev.DEBUG .SSSDBG_CRIT_FAILURE
                    "Unable to request name on the system bus: [%s]\n"])
      else
        let t3 := t2 ++ [Ev.DEBUG .SSSDBG_TRACE_FUNC ("Listening on " ++ dbus_name ++ "\n"),
                         Ev.sbus_init_connection conn]
        if w.sbus_init_connection.1 ≠ EOK then
          sysbus_init_fail w w.sbus_init_connection.1 (some conn) sysbus
            (t3 ++ [Ev.DEBUG .SSSDBG_CRIT_FAILURE
                      "Could not integrate D-BUS into mainloop.\n"])
        else
          let sconn := w.sbus_init_connection.2
          let t4 := t3 ++ [Ev.ifp_register_sbus_interface sconn]
          if w.ifp_register_sbus_interface ≠ EOK then
            sysbus_init_fail w w.ifp_register_sbus_interface (some conn) sysbus
              (t4 ++ [Ev.DEBUG .SSSDBG_CRIT_FAILURE "Could not register interfaces\n"])
          else
            { ret := EOK, sysbus := some { conn := sconn },
              trace := t4 ++ [Ev.ifp_register_nodes sconn] }

/-- Outcomes of the library calls made by one run of `ifp_sysbus_reconnect`. -/
structure ReconnectEnv where
  sysbus : SysbusEnv
  /-- Return code of `sbus_request_return_and_finish`. -/
  sbus_request_return_and_finish : Int

/-- What one run of `ifp_sysbus_reconnect` leaves behind. -/
structure ReconnectResult where
  ret : Int
  /-- The private context after the call. -/
  ctx : ifp_ctx
  trace : List Ev
  deriving DecidableEq, Repr

/-- The `done:` label of `ifp_sysbus_reconnect`: send the empty reply
(`DBUS_TYPE_INVALID` ends the argument list at once) and return what the send
returned. -/
def ifp_sysbus_reconnect_done (w : ReconnectEnv) (dbus_req : Nat) (ctx : ifp_ctx)
    (t : List Ev) : ReconnectResult :=
  { ret := w.sbus_request_return_and_finish, ctx := ctx,
    trace := t ++ [Ev.sbus_request_return_and_finish dbus_req] }

/-- The handler `ifp_sysbus_reconnect` of `ifpsrv.c`.  The argument `ctx` is
`rctx->pvt_ctx`, the context the handler reads after its two casts. -/
def ifp_sysbus_reconnect (idx : Nat) (w : ReconnectEnv) (dbus_req : Nat) (ctx : ifp_ctx) :
    ReconnectResult :=
  let t0 := [Ev.DEBUG .SSSDBG_TRACE_FUNC "Attempting to reconnect to the system bus\n"]
  if ctx.sysbus.isSome then
    ifp_sysbus_reconnect_done w dbus_req ctx
      (t0 ++ [Ev.DEBUG .SSSDBG_TRACE_LIBS "Already connected to sysbus\n"])
  else
    let r := sysbus_init idx w.sysbus IFACE_IFP ctx.sysbus
    let ctx1 : ifp_ctx := { ctx with sysbus := r.sysbus }
    let t1 := t0 ++ r.trace
    if r.ret = ERR_NO_SYSBUS idx then
      ifp_sysbus_reconnect_done w dbus_req ctx1
        (t1 ++ [Ev.DEBUG .SSSDBG_MINOR_FAILURE "The system bus is not available..\n"])
    else if r.ret ≠ EOK then
      { ret := r.ret, ctx := ctx1,
        trace := t1 ++ [Ev.DEBUG .SSSDBG_CRIT_FAILURE
                          "Failed to connect to the system message bus\n"] }
    else
      ifp_sysbus_reconnect_done w dbus_req ctx1
        (t1 ++ [Ev.DEBUG .SSSDBG_TRACE_LIBS "Reconnected to the system bus!\n"])

/-! ## Bootstrap -/

/-- What a `*_process_init` function leaves behind. -/
structure InitResult where
  ret : Int
  /-- The responder context as last written; `none` before `sss_process_init`
  produced one.  Whether it is still allocated is read off the trace. -/
  rctx : Option resp_ctx
  trace : List Ev
  deriving DecidableEq, Repr

/-- The loop `for (iter = rctx->be_conns; iter; iter = iter->next)` that both
responders run: one `sbus_reconnect_init` per list node. -/
def be_conns_loop (cb : Callback) (max_retries : Int) : List be_conn → List Ev
  | [] => []
  | iter :: next =>
    Ev.sbus_reconnect_init iter.conn max_retries cb iter :: be_conns_loop cb max_retries next

/-- The `fail:` label shared by both `*_process_init` functions. -/
def process_init_fail (ret : Int) (rctx : resp_ctx) (t : List Ev) : InitResult :=
  { ret := ret, rctx := some rctx, trace := t ++ [Ev.talloc_free .rctx] }

namespace Ifp

/-- Outcomes of the library calls made by `ifp_process_init`. -/
structure Env where
  /-- Return code and the `rctx` it hands back. -/
  sss_process_init : Int × resp_ctx
  /-- Whether `talloc_zero(rctx, struct ifp_ctx)` is non-NULL. -/
  talloc_zero : Bool
  sss_names_init_from_args : Int
  /-- Section, attribute, default ↦ return code and the string read. -/
  confdb_get_string : ConfSection → ConfAttr → Option String → Int × Option String
  /-- Return code and the parsed array. -/
  csv_string_to_uid_array : Option String → Int × List Nat
  ifp_parse_user_attr_list : Option String → Option (List String)
  /-- Section, attribute, default ↦ return code and the integer read. -/
  confdb_get_int : ConfSection → ConfAttr → Int → Int × Int
  /-- The converted value and `errno` after the call. -/
  strtouint32 : String → Nat × Int
  sysbus : SysbusEnv
  schedule_get_domains_task : Int

/-- The end of `ifp_process_init` from `schedule_get_domains_task` on (source
lines 341 to 349). -/
def ifp_process_init_sched (w : Env) (rctx : resp_ctx) (t : List Ev) : InitResult :=
  let t1 := t ++ [Ev.schedule_get_domains_task]
  if w.schedule_get_domains_task ≠ EOK then
    process_init_fail w.schedule_get_domains_task rctx
      (t1 ++ [Ev.DEBUG .SSSDBG_FATAL_FAILURE "schedule_get_domains_tasks failed.\n"])
  else
    { ret := EOK, rctx := some rctx,
      trace := t1 ++ [Ev.DEBUG .SSSDBG_TRACE_FUNC "InfoPipe Initialization complete\n"] }

/-- The tail of `ifp_process_init` from the reconnect wiring on (source lines
321 to 349); `c` is the private context and `rctx` its owner. -/
def ifp_process_init_wire (idx : Nat) (w : Env) (rctx : resp_ctx) (c : ifp_ctx)
    (max_retries : Int) (t : List Ev) : InitResult :=
  let t1 := t ++ be_conns_loop .ifp_dp_reconnect_init max_retries rctx.be_conns
  let r := sysbus_init idx w.sysbus IFACE_IFP c.sysbus
  let c1 : ifp_ctx := { c with sysbus := r.sysbus }
  let rctx1 : resp_ctx := { rctx with pvt_ctx := .ifp c1 }
  let t2 := t1 ++ r.trace
  if r.ret = ERR_NO_SYSBUS idx then
    -- explicitly ignored, the D-Bus daemon will start the responder
    ifp_process_init_sched w rctx1
      (t2 ++ [Ev.DEBUG .SSSDBG_MINOR_FAILURE "The system bus is not available..\n"])
  else if r.ret ≠ EOK then
    { ret := EIO, rctx := some rctx1,
      trace := t2 ++ [Ev.DEBUG .SSSDBG_CRIT_FAILURE
                        "Failed to connect to the system message bus\n",
                      Ev.talloc_free .ifp_ctx] }
  else
    ifp_process_init_sched w rctx1 t2

/-- The part of `ifp_process_init` that reads the retry count and the
wildcard limit (source lines 289 to 319), then the tail. -/
def ifp_process_init_limits (idx : Nat) (w : Env) (rctx : resp_ctx) (c : ifp_ctx)
    (t : List Ev) : InitResult :=
  let t1 := t ++ [Ev.confdb_get_int .CONFDB_IFP_CONF_ENTRY .CONFDB_SERVICE_RECON_RETRIES 3]
  let ri := w.confdb_get_int .CONFDB_IFP_CONF_ENTRY .CONFDB_SERVICE_RECON_RETRIES 3
  if ri.1 ≠ EOK then
    process_init_fail ri.1 rctx
      (t1 ++ [Ev.DEBUG .SSSDBG_FATAL_FAILURE "Failed to set up automatic reconnection\n"])
  else
    let max_retries := ri.2
    let t2 := t1 ++ [Ev.confdb_get_string .CONFDB_IFP_CONF_ENTRY .CONFDB_IFP_WILDCARD_LIMIT]
    let rs := w.confdb_get_string .CONFDB_IFP_CONF_ENTRY .CONFDB_IFP_WILDCARD_LIMIT none
    if rs.1 ≠ EOK then
      process_init_fail rs.1 rctx
        (t2 ++ [Ev.DEBUG .SSSDBG_FATAL_FAILURE
                  "Failed to retrieve limit for a wildcard search\n"])
    else
      match rs.2 with
      | none => ifp_process_init_wire idx w rctx c max_retries t2
      | some wildcard_limit_str =>
        let t3 := t2 ++ [Ev.strtouint32 wildcard_limit_str]
        let rv := w.strtouint32 wildcard_limit_str
        let c1 : ifp_ctx := { c with wildcard_limit := rv.1 }
        let rctx1 : resp_ctx := { rctx with pvt_ctx := .ifp c1 }
        if rv.2 ≠ EOK then
          process_init_fail rv.2 rctx1 t3
        else
          ifp_process_init_wire idx w rctx1 c1 max_retries t3

/-- The function `ifp_process_init` of `ifpsrv.c`. -/
def ifp_process_init (idx : Nat) (w : Env) : InitResult :=
  let t0 := [Ev.sss_process_init "InfoPipe"]
  if w.sss_process_init.1 ≠ EOK then
    { ret := w.sss_process_init.1, rctx := none,
      trace := t0 ++ [Ev.DEBUG .SSSDBG_FATAL_FAILURE "sss_process_init() failed\n"] }
  else
    let rctx := w.sss_process_init.2
    let t1 := t0 ++ [Ev.talloc_zero .ifp_ctx]
    if w.talloc_zero = false then
      process_init_fail ENOMEM rctx
        (t1 ++ [Ev.DEBUG .SSSDBG_FATAL_FAILURE "fatal error initializing ifp_ctx\n"])
    else
      let c0 : ifp_ctx :=
        { snctx := false, user_whitelist := none, wildcard_limit := 0, sysbus := none }
      let rctx0 : resp_ctx := { rctx with pvt_ctx := .ifp c0 }
      let t2 := t1 ++ [Ev.sss_names_init_from_args
                         "(?P<name>[^@]+)@?(?P<domain>[^@]*$)" "%1$s@%2$s"]
      if w.sss_names_init_from_args ≠ EOK then
        process_init_fail w.sss_names_init_from_args rctx0
          (t2 ++ [Ev.DEBUG .SSSDBG_FATAL_FAILURE "fatal error initializing regex data\n"])
      else
        let c1 : ifp_ctx := { c0 with snctx := true }
        let rctx1 : resp_ctx := { rctx0 with pvt_ctx := .ifp c1 }
        let t3 := t2 ++ [Ev.confdb_get_string .CONFDB_IFP_CONF_ENTRY
                           .CONFDB_SERVICE_ALLOWED_UIDS]
        let ru := w.confdb_get_string .CONFDB_IFP_CONF_ENTRY .CONFDB_SERVICE_ALLOWED_UIDS
                    (some "0")
        if ru.1 ≠ EOK then
          process_init_fail ru.1 rctx1
            (t3 ++ [Ev.DEBUG .SSSDBG_FATAL_FAILURE "Failed to get allowed UIDs.\n"])
        else
          let rc := w.csv_string_to_uid_array ru.2
          let t4 := t3 ++ [Ev.csv_string_to_uid_array ru.2, Ev.talloc_free .uid_str]
          if rc.1 ≠ EOK then
            process_init_fail rc.1 rctx1
              (t4 ++ [Ev.DEBUG .SSSDBG_FATAL_FAILURE "Failed to set allowed UIDs.\n"])
          else
            let rctx2 : resp_ctx := { rctx1 with allowed_uids := rc.2 }
            let t5 := t4 ++ [Ev.confdb_get_string .CONFDB_IFP_CONF_ENTRY
                               .CONFDB_IFP_USER_ATTR_LIST]
            let ra := w.confdb_get_string .CONFDB_IFP_CONF_ENTRY .CONFDB_IFP_USER_ATTR_LIST
                        none
            if ra.1 ≠ EOK then
              process_init_fail ra.1 rctx2
                (t5 ++ [Ev.DEBUG .SSSDBG_FATAL_FAILURE
                          "Failed to get user attribute list.\n"])
            else
              let c2 : ifp_ctx := { c1 with user_whitelist := w.ifp_parse_user_attr_list ra.2 }
              let rctx3 : resp_ctx := { rctx2 with pvt_ctx := .ifp c2 }
              let t6 := t5 ++ [Ev.ifp_parse_user_attr_list ra.2,
                               Ev.talloc_free .attr_list_str]
              if c2.user_whitelist = none then
                -- `goto fail` with `ret` still holding the EOK of the read above
                process_init_fail ra.1 rctx3
                  (t6 ++ [Ev.DEBUG .SSSDBG_FATAL_FAILURE
                            "Failed to parse the allowed attribute list\n"])
              else
                ifp_process_init_limits idx w rctx3 c2 t6

end Ifp

namespace Ssh

/-- Outcomes of the library calls made by `ssh_process_init`, and the three
defaults it passes on from `confdb.h`. -/
structure Env where
  /-- Return code and the `rctx` it hands back. -/
  sss_process_init : Int × resp_ctx
  /-- Whether `talloc_zero(rctx, struct ssh_ctx)` is non-NULL. -/
  talloc_zero : Bool
  sss_names_init_from_args : Int
  /-- Section, attribute, default ↦ return code and the integer read. -/
  confdb_get_int : ConfSection → ConfAttr → Int → Int × Int
  /-- Section, attribute, default ↦ return code and the flag read. -/
  confdb_get_bool : ConfSection → ConfAttr → Bool → Int × Bool
  /-- Section, attribute, default ↦ return code and the string read. -/
  confdb_get_string : ConfSection → ConfAttr → Option String → Int × Option String
  schedule_get_domains_task : Int
  CONFDB_DEFAULT_SSH_HASH_KNOWN_HOSTS : Bool
  CONFDB_DEFAULT_SSH_KNOWN_HOSTS_TIMEOUT : Int
  CONFDB_DEFAULT_SSH_CA_DB : String

/-- The part of `ssh_process_init` after the reconnect wiring (source lines
130 to 171): three options, then domain discovery. -/
def ssh_process_init_options (w : Env) (rctx : resp_ctx) (c : ssh_ctx) (t : List Ev) :
    InitResult :=
  let t1 := t ++ [Ev.confdb_get_bool .CONFDB_SSH_CONF_ENTRY .CONFDB_SSH_HASH_KNOWN_HOSTS]
  let rb := w.confdb_get_bool .CONFDB_SSH_CONF_ENTRY .CONFDB_SSH_HASH_KNOWN_HOSTS
              w.CONFDB_DEFAULT_SSH_HASH_KNOWN_HOSTS
  if rb.1 ≠ EOK then
    process_init_fail rb.1 rctx
      (t1 ++ [Ev.DEBUG .SSSDBG_FATAL_FAILURE "Error reading from confdb (%d) [%s]\n"])
  else
    let c1 : ssh_ctx := { c with hash_known_hosts := rb.2 }
    let rctx1 : resp_ctx := { rctx with pvt_ctx := .ssh c1 }
    let t2 := t1 ++ [Ev.confdb_get_int .CONFDB_SSH_CONF_ENTRY .CONFDB_SSH_KNOWN_HOSTS_TIMEOUT
                       w.CONFDB_DEFAULT_SSH_KNOWN_HOSTS_TIMEOUT]
    let ri := w.confdb_get_int .CONFDB_SSH_CONF_ENTRY .CONFDB_SSH_KNOWN_HOSTS_TIMEOUT
                w.CONFDB_DEFAULT_SSH_KNOWN_HOSTS_TIMEOUT
    if ri.1 ≠ EOK then
      process_init_fail ri.1 rctx1
        (t2 ++ [Ev.DEBUG .SSSDBG_FATAL_FAILURE "Error reading from confdb (%d) [%s]\n"])
    else
      let c2 : ssh_ctx := { c1 with known_hosts_timeout := ri.2 }
      let rctx2 : resp_ctx := { rctx1 with pvt_ctx := .ssh c2 }
      let t3 := t2 ++ [Ev.confdb_get_string .CONFDB_SSH_CONF_ENTRY .CONFDB_SSH_CA_DB]
      let rs := w.confdb_get_string .CONFDB_SSH_CONF_ENTRY .CONFDB_SSH_CA_DB
                  (some w.CONFDB_DEFAULT_SSH_CA_DB)
      if rs.1 ≠ EOK then
        process_init_fail rs.1 rctx2
          (t3 ++ [Ev.DEBUG .SSSDBG_FATAL_FAILURE
                    "Error reading CA DB from confdb (%d) [%s]\n"])
      else
        let c3 : ssh_ctx := { c2 with ca_db := rs.2 }
        let rctx3 : resp_ctx := { rctx2 with pvt_ctx := .ssh c3 }
        let t4 := t3 ++ [Ev.schedule_get_domains_task]
        if w.schedule_get_domains_task ≠ EOK then
          process_init_fail w.schedule_get_domains_task rctx3
            (t4 ++ [Ev.DEBUG .SSSDBG_FATAL_FAILURE "schedule_get_domains_tasks failed.\n"])
        else
          { ret := EOK, rctx := some rctx3,
            trace := t4 ++ [Ev.DEBUG .SSSDBG_TRACE_FUNC "SSH Initialization complete\n"] }

/-- The function `ssh_process_init` of `sshsrv.c`. -/
def ssh_process_init (w : Env) : InitResult :=
  let t0 := [Ev.sss_process_init "SSH"]
  if w.sss_process_init.1 ≠ EOK then
    { ret := w.sss_process_init.1, rctx := none,
      trace := t0 ++ [Ev.DEBUG .SSSDBG_FATAL_FAILURE "sss_process_init() failed\n"] }
  else
    let rctx := w.sss_process_init.2
    let t1 := t0 ++ [Ev.talloc_zero .ssh_ctx]
    if w.talloc_zero = false then
      process_init_fail ENOMEM rctx
        (t1 ++ [Ev.DEBUG .SSSDBG_FATAL_FAILURE "fatal error initializing ssh_ctx\n"])
    else
      let c0 : ssh_ctx :=
        { snctx := false, hash_known_hosts := false, known_hosts_timeout := 0, ca_db := none }
      let rctx0 : resp_ctx := { rctx with pvt_ctx := .ssh c0 }
      let t2 := t1 ++ [Ev.sss_names_init_from_args
                         "(?P<name>[^@]+)@?(?P<domain>[^@]*$)" "%1$s@%2$s"]
      if w.sss_names_init_from_args ≠ EOK then
        process_init_fail w.sss_names_init_from_args rctx0
          (t2 ++ [Ev.DEBUG .SSSDBG_FATAL_FAILURE "fatal error initializing regex data\n"])
      else
        let c1 : ssh_ctx := { c0 with snctx := true }
        let rctx1 : resp_ctx := { rctx0 with pvt_ctx := .ssh c1 }
        let t3 := t2 ++ [Ev.confdb_get_int .CONFDB_SSH_CONF_ENTRY
                           .CONFDB_SERVICE_RECON_RETRIES 3]
        let ri := w.confdb_get_int .CONFDB_SSH_CONF_ENTRY .CONFDB_SERVICE_RECON_RETRIES 3
        if ri.1 ≠ EOK then
          process_init_fail ri.1 rctx1
            (t3 ++ [Ev.DEBUG .SSSDBG_FATAL_FAILURE
                      "Failed to set up automatic reconnection\n"])
        else
          let max_retries := ri.2
          ssh_process_init_options w rctx1 c1
            (t3 ++ be_conns_loop .ssh_dp_reconnect_init max_retries rctx1.be_conns)

end Ssh

/-! ## Process entry points -/

/-- Outcomes of the library calls made by a responder's `main`; `α` is the
environment of its `*_process_init`. -/
structure MainEnv (α : Type) where
  /-- What the first `poptGetNextOpt` returns: `-1` when every option was
  accepted.  The loop body returns for every other value, so no second call
  is ever made. -/
  poptGetNextOpt : Int
  server_setup : Int
  die_if_parent_died : Int
  process_init : α
  /-- Whether `server_loop` ever returns to `main`. -/
  server_loop_returns : Bool

/-- What a run of `main` leaves behind. -/
structure MainResult where
  /-- The value `main` returns; `none` when `server_loop` never returns. -/
  exit : Option Int
  trace : List Ev
  deriving DecidableEq, Repr

namespace Ifp

/-- The function `main` of `ifpsrv.c`. -/
def main (idx : Nat) (w : MainEnv Env) : MainResult :=
  let t0 := [Ev.umask, Ev.poptGetContext, Ev.poptGetNextOpt]
  if w.poptGetNextOpt ≠ -1 then
    { exit := some 1, trace := t0 ++ [Ev.fprintf_invalid_option, Ev.poptPrintUsage] }
  else
    let t1 := t0 ++ [Ev.poptFreeContext, Ev.DEBUG_INIT, Ev.server_setup "sssd[ifp]"]
    if w.server_setup ≠ EOK then
      { exit := some 2, trace := t1 }
    else
      let t2 := t1 ++ [Ev.die_if_parent_died]
      let t3 :=
        if w.die_if_parent_died ≠ EOK then
          -- this is not fatal, don't return
          t2 ++ [Ev.DEBUG .SSSDBG_MINOR_FAILURE
                   "Could not set up to exit when parent process does\n"]
        else t2
      let r := ifp_process_init idx w.process_init
      let t4 := t3 ++ r.trace
      if r.ret ≠ EOK then
        { exit := some 3, trace := t4 }
      else
        { exit := if w.server_loop_returns then some 0 else none,
          trace := t4 ++ [Ev.server_loop] }

end Ifp

namespace Ssh

/-- The function `main` of `sshsrv.c`. -/
def main (w : MainEnv Env) : MainResult :=
  let t0 := [Ev.umask, Ev.poptGetContext, Ev.poptGetNextOpt]
  if w.poptGetNextOpt ≠ -1 then
    { exit := some 1, trace := t0 ++ [Ev.fprintf_invalid_option, Ev.poptPrintUsage] }
  else
    let t1 := t0 ++ [Ev.poptFreeContext, Ev.DEBUG_INIT, Ev.server_setup "sssd[ssh]"]
    if w.server_setup ≠ EOK then
      { exit := some 2, trace := t1 }
    else
      let t2 := t1 ++ [Ev.die_if_parent_died]
      let t3 :=
        if w.die_if_parent_died ≠ EOK then
          -- this is not fatal, don't return
          t2 ++ [Ev.DEBUG .SSSDBG_OP_FAILURE
                   "Could not set up to exit when parent process does\n"]
        else t2
      let r := ssh_process_init w.process_init
      let t4 := t3 ++ r.trace
      if r.ret ≠ EOK then
        { exit := some 3, trace := t4 }
      else
        { exit := if w.server_loop_returns then some 0 else none,
          trace := t4 ++ [Ev.server_loop] }

end Ssh

/-! ## Vocabulary of the statements -/

namespace Ifp

/-- Every step of `ifp_process_init` that comes before the reconnect wiring
succeeds in the environment `w` (source lines 221 to 319). -/
def pre_wiring_ok (w : Env) : Prop :=
  w.sss_process_init.1 = EOK ∧
  w.talloc_zero = true ∧
  w.sss_names_init_from_args = EOK ∧
  (w.confdb_get_string .CONFDB_IFP_CONF_ENTRY .CONFDB_SERVICE_ALLOWED_UIDS (some "0")).1 = EOK ∧
  (w.csv_string_to_uid_array
    (w.confdb_get_string .CONFDB_IFP_CONF_ENTRY .CONFDB_SERVICE_ALLOWED_UIDS (some "0")).2).1
    = EOK ∧
  (w.confdb_get_string .CONFDB_IFP_CONF_ENTRY .CONFDB_IFP_USER_ATTR_LIST none).1 = EOK ∧
  w.ifp_parse_user_attr_list
    (w.confdb_get_string .CONFDB_IFP_CONF_ENTRY .CONFDB_IFP_USER_ATTR_LIST none).2 ≠ none ∧
  (w.confdb_get_int .CONFDB_IFP_CONF_ENTRY .CONFDB_SERVICE_RECON_RETRIES 3).1 = EOK ∧
  (w.confdb_get_string .CONFDB_IFP_CONF_ENTRY .CONFDB_IFP_WILDCARD_LIMIT none).1 = EOK ∧
  (∀ s, (w.confdb_get_string .CONFDB_IFP_CONF_ENTRY .CONFDB_IFP_WILDCARD_LIMIT none).2 = some s →
    (w.strtouint32 s).2 = EOK)

/-- The control bus recorded in a responder context, when its private context
is an InfoPipe one. -/
def sysbus_of (rctx : resp_ctx) : Option sysbus_ctx :=
  match rctx.pvt_ctx with
  | .ifp c => c.sysbus
  | _ => none

end Ifp

/-- The events `sysbus_init` can produce: its allocation, the D-Bus and sbus
calls, the release of its own allocation, and log lines. -/
def Ev.is_bus_step : Ev → Bool
  | .DEBUG _ _ => true
  | .talloc_zero .system_bus => true
  | .talloc_free .system_bus => true
  | .dbus_error_init => true
  | .dbus_bus_get => true
  | .dbus_connection_set_exit_on_disconnect _ => true
  | .dbus_bus_request_name _ _ => true
  | .sbus_init_connection _ => true
  | .ifp_register_sbus_interface _ => true
  | .ifp_register_nodes _ => true
  | .dbus_error_free => true
  | .dbus_connection_unref _ => true
  | _ => false

/-- The events of the configuration phase of a bootstrap: base registration,
the private context allocation, the option reads and their parsers, the
release of the two temporary strings, and log lines. -/
def Ev.is_config_step : Ev → Bool
  | .DEBUG _ _ => true
  | .sss_process_init _ => true
  | .talloc_zero .ifp_ctx => true
  | .talloc_zero .ssh_ctx => true
  | .sss_names_init_from_args _ _ => true
  | .confdb_get_string _ _ => true
  | .confdb_get_int _ _ _ => true
  | .confdb_get_bool _ _ => true
  | .csv_string_to_uid_array _ => true
  | .ifp_parse_user_attr_list _ => true
  | .strtouint32 _ => true
  | .talloc_free .uid_str => true
  | .talloc_free .attr_list_str => true
  | _ => false

/-- The replies a trace sends back on a bus request. -/
def replies (t : List Ev) : List Ev :=
  t.filter fun e =>
    match e with
    | .sbus_request_return_and_finish _ => true
    | _ => false

/-- What reaches the sender of a reconnect request: the code the handler hands
back to the dispatcher and the replies sent on the request. -/
def ReconnectResult.reported (r : ReconnectResult) : Int × List Ev :=
  (r.ret, replies r.trace)

/-- The `sbus_reconnect_init` calls of a trace, in order. -/
def wiring_calls (t : List Ev) : List Ev :=
  t.filter fun e =>
    match e with
    | .sbus_reconnect_init _ _ _ _ => true
    | _ => false

namespace Ssh

/-- Every step of `ssh_process_init` that comes before the reconnect wiring
succeeds in the environment `w` (source lines 79 to 123). -/
def pre_wiring_ok (w : Env) : Prop :=
  w.sss_process_init.1 = EOK ∧
  w.talloc_zero = true ∧
  w.sss_names_init_from_args = EOK ∧
  (w.confdb_get_int .CONFDB_SSH_CONF_ENTRY .CONFDB_SERVICE_RECON_RETRIES 3).1 = EOK

end Ssh

/-! ## Sample environments -/

/-- Backend link of a domain `A`. -/
def sample_be_A : be_conn := { conn := 1, domain := "A", rctx := 0 }

/-- Backend link of a domain `B`. -/
def sample_be_B : be_conn := { conn := 2, domain := "B", rctx := 0 }

/-- A responder context with the two links, as `sss_process_init` hands it back. -/
def sample_rctx : resp_ctx :=
  { be_conns := [sample_be_A, sample_be_B], allowed_uids := [], pvt_ctx := .NULL }

/-- A system bus that is reachable and grants the name. -/
def sample_bus_ok : SysbusEnv :=
  { talloc_zero := true, dbus_bus_get := some 9, dbus_bus_request_name := 1,
    sbus_init_connection := (0, 10), ifp_register_sbus_interface := 0,
    dbus_error_is_set := false }

/-- No system bus: `dbus_bus_get` returns `NULL`. -/
def sample_bus_unreachable : SysbusEnv :=
  { sample_bus_ok with dbus_bus_get := none, dbus_error_is_set := true }

/-- A reachable bus on which the name is already owned
(`DBUS_REQUEST_NAME_REPLY_EXISTS`, 3). -/
def sample_bus_name_taken : SysbusEnv :=
  { sample_bus_ok with dbus_bus_request_name := 3, dbus_error_is_set := false }

/-- An InfoPipe bootstrap in which every call succeeds and every option is
unset, so each configuration read hands back its default. -/
def sample_ifp_env : Ifp.Env :=
  { sss_process_init := (0, sample_rctx),
    talloc_zero := true,
    sss_names_init_from_args := 0,
    confdb_get_string := fun _ _ d => (0, d),
    csv_string_to_uid_array := fun _ => (0, [0]),
    ifp_parse_user_attr_list := fun _ => some ["name"],
    confdb_get_int := fun _ _ d => (0, d),
    strtouint32 := fun _ => (0, 0),
    sysbus := sample_bus_ok,
    schedule_get_domains_task := 0 }

/-- The same bootstrap without a system bus. -/
def sample_ifp_env_no_bus : Ifp.Env :=
  { sample_ifp_env with sysbus := sample_bus_unreachable }

/-- The same bootstrap with the bus name already owned by another process. -/
def sample_ifp_env_name_taken : Ifp.Env :=
  { sample_ifp_env with sysbus := sample_bus_name_taken }

/-- The same bootstrap, except that `ifp_parse_user_attr_list` returns `NULL`. -/
def sample_ifp_env_whitelist_null : Ifp.Env :=
  { sample_ifp_env with ifp_parse_user_attr_list := fun _ => none }

/-- A freshly zeroed InfoPipe context with the name patterns and the
whitelist set: the control bus is `NULL`. -/
def sample_ifp_ctx : ifp_ctx :=
  { snctx := true, user_whitelist := some ["name"], wildcard_limit := 0, sysbus := none }

/-- A start of the InfoPipe responder with valid options and a working base
setup, in which `ifp_parse_user_attr_list` returns `NULL`. -/
def sample_ifp_main_whitelist_null : MainEnv Ifp.Env :=
  { poptGetNextOpt := -1, server_setup := 0, die_if_parent_died := 0,
    process_init := sample_ifp_env_whitelist_null, server_loop_returns := true }

/-- A reconnect request served without a system bus. -/
def sample_reconnect_no_bus : ReconnectEnv :=
  { sysbus := sample_bus_unreachable, sbus_request_return_and_finish := 0 }

/-- A reconnect request served with a bus that grants the name. -/
def sample_reconnect_ok : ReconnectEnv :=
  { sysbus := sample_bus_ok, sbus_request_return_and_finish := 0 }

/-- An InfoPipe context whose control bus is up. -/
def sample_ifp_ctx_active : ifp_ctx :=
  { sample_ifp_ctx with sysbus := some { conn := 10 } }

/-- An SSH bootstrap in which every call succeeds and every option is unset,
so each configuration read hands back its default. -/
def sample_ssh_env : Ssh.Env :=
  { sss_process_init := (0, sample_rctx),
    talloc_zero := true,
    sss_names_init_from_args := 0,
    confdb_get_int := fun _ _ d => (0, d),
    confdb_get_bool := fun _ _ d => (0, d),
    confdb_get_string := fun _ _ d => (0, d),
    schedule_get_domains_task := 0,
    CONFDB_DEFAULT_SSH_HASH_KNOWN_HOSTS := true,
    CONFDB_DEFAULT_SSH_KNOWN_HOSTS_TIMEOUT := 180,
    CONFDB_DEFAULT_SSH_CA_DB := "/etc/pki/nssdb" }

/-- A start of the InfoPipe responder on the all-success bootstrap, with the
given results of option parsing, `server_setup` and `die_if_parent_died`. -/
def sample_ifp_main (opt setup parent : Int) : MainEnv Ifp.Env :=
  { poptGetNextOpt := opt, server_setup := setup, die_if_parent_died := parent,
    process_init := sample_ifp_env, server_loop_returns := true }

/-- A start of the SSH responder on a bootstrap whose domain discovery cannot
be scheduled, with the given results of option parsing and `server_setup`. -/
def sample_ssh_main (opt setup : Int) : MainEnv Ssh.Env :=
  { poptGetNextOpt := opt, server_setup := setup, die_if_parent_died := 0,
    process_init := { sample_ssh_env with schedule_get_domains_task := 12 },
    server_loop_returns := true }

/-- A reachable bus that grants the name, on which `sbus_init_connection`
then fails with `ENOMEM` (12). -/
def sample_bus_no_mainloop : SysbusEnv :=
  { sample_bus_ok with sbus_init_connection := (12, 0) }

/-- A reconnect request served on that bus. -/
def sample_reconnect_no_mainloop : ReconnectEnv :=
  { sysbus := sample_bus_no_mainloop, sbus_request_return_and_finish := 0 }

/-- The all-success bootstrap on that bus. -/
def sample_ifp_env_no_mainloop : Ifp.Env :=
  { sample_ifp_env with sysbus := sample_bus_no_mainloop }

/-! ## Lemmas on `sysbus_init` -/

theorem ERR_NO_SYSBUS_ne_EOK (idx : Nat) : ERR_NO_SYSBUS idx ≠ EOK := by
  unfold ERR_NO_SYSBUS ERR_BASE EOK
  omega

theorem EIO_ne_ERR_NO_SYSBUS_code (idx : Nat) : ERR_NO_SYSBUS idx ≠ EIO := by
  unfold ERR_NO_SYSBUS ERR_BASE EIO
  omega

theorem sysbus_init_fail_ret (w : SysbusEnv) (ret : Int) (conn : Option Nat)
    (sysbus : Option sysbus_ctx) (t : List Ev) :
    (sysbus_init_fail w ret conn sysbus t).ret = ret := rfl

theorem sysbus_init_fail_sysbus (w : SysbusEnv) (ret : Int) (conn : Option Nat)
    (sysbus : Option sysbus_ctx) (t : List Ev) :
    (sysbus_init_fail w ret conn sysbus t).sysbus = sysbus := rfl

/-- The `fail:` label adds nothing to a trace but its own four kinds of event. -/
theorem mem_sysbus_init_fail_trace (w : SysbusEnv) (ret : Int) (conn : Option Nat)
    (sysbus : Option sysbus_ctx) (t : List Ev) (e : Ev)
    (h : e ∈ (sysbus_init_fail w ret conn sysbus t).trace) :
    e ∈ t ∨ e = Ev.DEBUG .SSSDBG_OP_FAILURE "DBus error message: %s\n" ∨
      e = Ev.dbus_error_free ∨ (∃ c, e = Ev.dbus_connection_unref c) ∨
      e = Ev.talloc_free .system_bus := by
  unfold sysbus_init_fail at h
  cases conn <;> cases hs : w.dbus_error_is_set <;> simp [hs] at h <;> aesop

/-- A run of `sysbus_init` that does not return `EOK` leaves `*sysbus` alone. -/
theorem sysbus_init_sysbus_of_ne (idx : Nat) (w : SysbusEnv) (n : String)
    (s : Option sysbus_ctx) (h : (sysbus_init idx w n s).ret ≠ EOK) :
    (sysbus_init idx w n s).sysbus = s := by
  unfold sysbus_init at h ⊢
  cases h0 : w.talloc_zero <;> cases h1 : w.dbus_bus_get <;>
    simp only [h0, h1, sysbus_init_fail_sysbus] at h ⊢ <;>
    simp at h ⊢ <;>
    first
      | rfl
      | (split_ifs at h ⊢ <;> simp_all [sysbus_init_fail_sysbus])

/-- The `fail:` label keeps a trace within the steps of `sysbus_init`. -/
theorem sysbus_init_fail_bus_steps (w : SysbusEnv) (ret : Int) (conn : Option Nat)
    (sysbus : Option sysbus_ctx) (t : List Ev) (ht : ∀ e ∈ t, e.is_bus_step = true) :
    ∀ e ∈ (sysbus_init_fail w ret conn sysbus t).trace, e.is_bus_step = true := by
  intro e he
  rcases mem_sysbus_init_fail_trace _ _ _ _ _ _ he with h | h | h | ⟨c, h⟩ | h
  · exact ht e h
  all_goals subst h; rfl

/-- Every event of a `sysbus_init` run is one of its own steps. -/
theorem sysbus_init_trace_bus_steps (idx : Nat) (w : SysbusEnv) (n : String)
    (s : Option sysbus_ctx) :
    ∀ e ∈ (sysbus_init idx w n s).trace, e.is_bus_step = true := by
  unfold sysbus_init
  cases h0 : w.talloc_zero <;> cases h1 : w.dbus_bus_get <;>
    simp only [h0, h1] <;> simp only [Bool.true_eq_false, Bool.false_eq_true, if_true, if_false]
  · simp [Ev.is_bus_step]
  · simp [Ev.is_bus_step]
  · apply sysbus_init_fail_bus_steps
    simp [Ev.is_bus_step]
  · split_ifs
    all_goals first
      | (apply sysbus_init_fail_bus_steps
         simp [Ev.is_bus_step])
      | simp [Ev.is_bus_step]

/-! ## Lemmas on the bootstrap -/

theorem be_conns_loop_eq_map (cb : Callback) (max_retries : Int) (l : List be_conn) :
    be_conns_loop cb max_retries l =
      l.map (fun b => Ev.sbus_reconnect_init b.conn max_retries cb b) := by
  induction l with
  | nil => rfl
  | cons b l ih => simp [be_conns_loop, ih]

/-- When the configuration phase succeeds, `ifp_process_init` is its tail from
the wiring on, run on a context whose control bus is still `NULL` and after a
trace of configuration steps only. -/
theorem Ifp.ifp_process_init_of_pre_wiring_ok (idx : Nat) (w : Ifp.Env)
    (h : Ifp.pre_wiring_ok w) :
    ∃ (c : ifp_ctx) (uids : List Nat) (t : List Ev),
      c.sysbus = none ∧
      (∀ e ∈ t, e.is_config_step = true) ∧
      Ev.confdb_get_int .CONFDB_IFP_CONF_ENTRY .CONFDB_SERVICE_RECON_RETRIES 3 ∈ t ∧
      Ifp.ifp_process_init idx w =
        Ifp.ifp_process_init_wire idx w
          { be_conns := w.sss_process_init.2.be_conns, allowed_uids := uids,
            pvt_ctx := .ifp c } c
          (w.confdb_get_int .CONFDB_IFP_CONF_ENTRY .CONFDB_SERVICE_RECON_RETRIES 3).2 t := by
  obtain ⟨h1, h2, h3, h4, h5, h6, h7, h8, h9, h10⟩ := h
  cases hw : (w.confdb_get_string .CONFDB_IFP_CONF_ENTRY .CONFDB_IFP_WILDCARD_LIMIT none).2 with
  | none =>
    simp only [Ifp.ifp_process_init, Ifp.ifp_process_init_limits, h1, h2, h3, h4, h5, h6, h7,
      h8, h9, hw, ne_eq, not_true_eq_false, if_false, Bool.true_eq_false]
    refine ⟨_, _, _, ?_, ?_, ?_, rfl⟩
    · rfl
    · simp [Ev.is_config_step]
    · simp
  | some str =>
    have h11 := h10 str hw
    simp only [Ifp.ifp_process_init, Ifp.ifp_process_init_limits, h1, h2, h3, h4, h5, h6, h7,
      h8, h9, hw, h11, ne_eq, not_true_eq_false, if_false, Bool.true_eq_false]
    refine ⟨_, _, _, ?_, ?_, ?_, rfl⟩
    · rfl
    · simp [Ev.is_config_step]
    · simp

theorem sample_ifp_env_no_bus_pre_wiring_ok : Ifp.pre_wiring_ok sample_ifp_env_no_bus := by
  simp [Ifp.pre_wiring_ok, sample_ifp_env_no_bus, sample_ifp_env, EOK]

theorem sample_ifp_env_name_taken_pre_wiring_ok :
    Ifp.pre_wiring_ok sample_ifp_env_name_taken := by
  simp [Ifp.pre_wiring_ok, sample_ifp_env_name_taken, sample_ifp_env, EOK]

/-- No step of `sysbus_init` is scheduling, freeing a context, or wiring. -/
theorem not_mem_sysbus_init_trace (idx : Nat) (w : SysbusEnv) (n : String)
    (s : Option sysbus_ctx) (e : Ev) (he : e.is_bus_step = false) :
    e ∉ (sysbus_init idx w n s).trace := by
  intro h
  have := sysbus_init_trace_bus_steps idx w n s e h
  simp [he] at this

theorem not_mem_be_conns_loop (cb : Callback) (mr : Int) (l : List be_conn) (e : Ev)
    (he : ∀ a b c d, e ≠ Ev.sbus_reconnect_init a b c d) :
    e ∉ be_conns_loop cb mr l := by
  rw [be_conns_loop_eq_map]
  intro h
  obtain ⟨b, _, hb⟩ := List.mem_map.mp h
  exact he _ _ _ _ hb.symm

theorem not_mem_of_config_steps (t : List Ev) (ht : ∀ e ∈ t, e.is_config_step = true) (e : Ev)
    (he : e.is_config_step = false) : e ∉ t := by
  intro h
  have := ht e h
  simp [he] at this

/-! ## The claims -/

/-- C1, the code at the failing input.  Every step up to the attribute list
read succeeds and `ifp_parse_user_attr_list` returns `NULL`: the function
logs the fatal failure and frees `rctx`, yet the value it returns is `EOK`, so
`main` goes on into `server_loop` and exits with 0 rather than 3. -/
theorem c1_whitelist_null_returns_EOK (idx : Nat) :
    (Ifp.ifp_process_init idx sample_ifp_env_whitelist_null).ret = EOK ∧
    Ev.DEBUG .SSSDBG_FATAL_FAILURE "Failed to parse the allowed attribute list\n"
      ∈ (Ifp.ifp_process_init idx sample_ifp_env_whitelist_null).trace ∧
    Ev.talloc_free .rctx ∈ (Ifp.ifp_process_init idx sample_ifp_env_whitelist_null).trace ∧
    (Ifp.main idx sample_ifp_main_whitelist_null).exit = some 0 ∧
    Ev.server_loop ∈ (Ifp.main idx sample_ifp_main_whitelist_null).trace := by
  have h : Ifp.ifp_process_init idx sample_ifp_env_whitelist_null =
      Ifp.ifp_process_init 0 sample_ifp_env_whitelist_null := rfl
  have hm : Ifp.main idx sample_ifp_main_whitelist_null =
      Ifp.main 0 sample_ifp_main_whitelist_null := rfl
  rw [h, hm]
  refine ⟨by decide, by decide, by decide, by decide, by decide⟩

/-- C2.  When every step before the control bus succeeds and `sysbus_init`
returns `ERR_NO_SYSBUS`, the bootstrap goes on: domain discovery is scheduled,
and if the scheduling returns `EOK` then `ifp_process_init` returns `EOK`, the
control bus of the private context is `NULL`, and neither `rctx` nor `ifp_ctx`
has been freed. -/
theorem c2_no_sysbus_bootstrap_completes (idx : Nat) (w : Ifp.Env)
    (hpre : Ifp.pre_wiring_ok w)
    (hbus : (sysbus_init idx w.sysbus IFACE_IFP none).ret = ERR_NO_SYSBUS idx) :
    Ev.schedule_get_domains_task ∈ (Ifp.ifp_process_init idx w).trace ∧
    (w.schedule_get_domains_task = EOK →
      (Ifp.ifp_process_init idx w).ret = EOK ∧
      (∃ rctx, (Ifp.ifp_process_init idx w).rctx = some rctx ∧
        (∃ c, rctx.pvt_ctx = .ifp c) ∧ Ifp.sysbus_of rctx = none) ∧
      Ev.talloc_free .rctx ∉ (Ifp.ifp_process_init idx w).trace ∧
      Ev.talloc_free .ifp_ctx ∉ (Ifp.ifp_process_init idx w).trace) := by
  obtain ⟨c, uids, t, hc, ht, -, heq⟩ := Ifp.ifp_process_init_of_pre_wiring_ok idx w hpre
  rw [heq]
  have hs : (sysbus_init idx w.sysbus IFACE_IFP none).sysbus = none :=
    sysbus_init_sysbus_of_ne idx w.sysbus IFACE_IFP none
      (by rw [hbus]; exact ERR_NO_SYSBUS_ne_EOK idx)
  have hf1 := not_mem_sysbus_init_trace idx w.sysbus IFACE_IFP none (Ev.talloc_free .rctx) rfl
  have hf2 := not_mem_sysbus_init_trace idx w.sysbus IFACE_IFP none (Ev.talloc_free .ifp_ctx) rfl
  have hl1 := not_mem_be_conns_loop .ifp_dp_reconnect_init
    (w.confdb_get_int .CONFDB_IFP_CONF_ENTRY .CONFDB_SERVICE_RECON_RETRIES 3).2
    w.sss_process_init.2.be_conns (Ev.talloc_free .rctx) (by simp)
  have hl2 := not_mem_be_conns_loop .ifp_dp_reconnect_init
    (w.confdb_get_int .CONFDB_IFP_CONF_ENTRY .CONFDB_SERVICE_RECON_RETRIES 3).2
    w.sss_process_init.2.be_conns (Ev.talloc_free .ifp_ctx) (by simp)
  have hc1 := not_mem_of_config_steps t ht (Ev.talloc_free .rctx) rfl
  have hc2 := not_mem_of_config_steps t ht (Ev.talloc_free .ifp_ctx) rfl
  constructor
  · simp only [Ifp.ifp_process_init_wire, hc, hbus, if_true, Ifp.ifp_process_init_sched]
    split_ifs <;> simp [process_init_fail]
  · intro hsch
    simp only [Ifp.ifp_process_init_wire, hc, hbus, if_true, Ifp.ifp_process_init_sched, hsch,
      ne_eq, not_true_eq_false, if_false, hs]
    refine ⟨trivial, ?_, ?_, ?_⟩
    · simp [Ifp.sysbus_of]
    · simp [hf1, hl1, hc1]
    · simp [hf2, hl2, hc2]

/-- C2 at a sample bootstrap without a system bus. -/
theorem c2_no_sysbus_bootstrap_completes_witness :
    Ifp.pre_wiring_ok sample_ifp_env_no_bus ∧
    (sysbus_init 0 sample_ifp_env_no_bus.sysbus IFACE_IFP none).ret = ERR_NO_SYSBUS 0 ∧
    Ev.schedule_get_domains_task ∈ (Ifp.ifp_process_init 0 sample_ifp_env_no_bus).trace ∧
    (Ifp.ifp_process_init 0 sample_ifp_env_no_bus).ret = EOK ∧
    Ev.talloc_free .rctx ∉ (Ifp.ifp_process_init 0 sample_ifp_env_no_bus).trace :=
  have h := c2_no_sysbus_bootstrap_completes 0 sample_ifp_env_no_bus
    sample_ifp_env_no_bus_pre_wiring_ok (by decide)
  ⟨sample_ifp_env_no_bus_pre_wiring_ok, by decide, h.1, (h.2 (by decide)).1,
    (h.2 (by decide)).2.2.1⟩

/-- C3.  With its allocation granted, `sysbus_init` returns `ERR_NO_SYSBUS`
when `dbus_bus_get` yields no connection, and then never asks for the name;
it returns `EIO`, which differs from `ERR_NO_SYSBUS`, whenever a connection
was obtained and `dbus_bus_request_name` answers anything but
`DBUS_REQUEST_NAME_REPLY_PRIMARY_OWNER`.  At bootstrap such a name conflict
makes `ifp_process_init` return `EIO` without scheduling domain discovery. -/
theorem c3_unreachable_and_name_conflict_kept_apart (idx : Nat) (w : SysbusEnv)
    (n : String) (s : Option sysbus_ctx) (halloc : w.talloc_zero = true) :
    (w.dbus_bus_get = none →
      (sysbus_init idx w n s).ret = ERR_NO_SYSBUS idx ∧
      ∀ c m, Ev.dbus_bus_request_name c m ∉ (sysbus_init idx w n s).trace) ∧
    (∀ conn, w.dbus_bus_get = some conn →
      w.dbus_bus_request_name ≠ DBUS_REQUEST_NAME_REPLY_PRIMARY_OWNER →
      (sysbus_init idx w n s).ret = EIO ∧
      (sysbus_init idx w n s).ret ≠ ERR_NO_SYSBUS idx) ∧
    (∀ (e : Ifp.Env) conn, e.sysbus = w → Ifp.pre_wiring_ok e →
      w.dbus_bus_get = some conn →
      w.dbus_bus_request_name ≠ DBUS_REQUEST_NAME_REPLY_PRIMARY_OWNER →
      (Ifp.ifp_process_init idx e).ret = EIO ∧
      (Ifp.ifp_process_init idx e).ret ≠ EOK ∧
      Ev.schedule_get_domains_task ∉ (Ifp.ifp_process_init idx e).trace) := by
  have hconf : ∀ conn, w.dbus_bus_get = some conn →
      w.dbus_bus_request_name ≠ DBUS_REQUEST_NAME_REPLY_PRIMARY_OWNER →
      ∀ s', (sysbus_init idx w n s').ret = EIO := by
    intro conn hget hreq s'
    simp [sysbus_init, halloc, hget, hreq, sysbus_init_fail_ret]
  refine ⟨?_, ?_, ?_⟩
  · intro hget
    constructor
    · simp [sysbus_init, halloc, hget, sysbus_init_fail_ret]
    · intro c m hmem
      simp only [sysbus_init, halloc, hget, Bool.true_eq_false, if_false] at hmem
      rcases mem_sysbus_init_fail_trace _ _ _ _ _ _ hmem with h | h | h | ⟨c, h⟩ | h <;>
        simp at h
  · intro conn hget hreq
    rw [hconf conn hget hreq s]
    exact ⟨rfl, fun h => EIO_ne_ERR_NO_SYSBUS_code idx h.symm⟩
  · intro e conn he hpre hget hreq
    subst he
    obtain ⟨c, uids, t, hc, ht, -, heq⟩ := Ifp.ifp_process_init_of_pre_wiring_ok idx e hpre
    have hr : (sysbus_init idx e.sysbus IFACE_IFP none).ret = EIO := by
      simp [sysbus_init, halloc, hget, hreq, sysbus_init_fail_ret]
    have hne : ( EIO : Int) ≠ ERR_NO_SYSBUS idx :=
      fun h => EIO_ne_ERR_NO_SYSBUS_code idx h.symm
    have hne0 : ( EIO : Int) ≠ EOK := by decide
    have hb := not_mem_sysbus_init_trace idx e.sysbus IFACE_IFP none
      Ev.schedule_get_domains_task rfl
    have hl := not_mem_be_conns_loop .ifp_dp_reconnect_init
      (e.confdb_get_int .CONFDB_IFP_CONF_ENTRY .CONFDB_SERVICE_RECON_RETRIES 3).2
      e.sss_process_init.2.be_conns Ev.schedule_get_domains_task (by simp)
    have hcf := not_mem_of_config_steps t ht Ev.schedule_get_domains_task rfl
    rw [heq]
    simp only [Ifp.ifp_process_init_wire, hc, hr, hne, hne0, if_false, ne_eq, not_false_eq_true,
      if_true]
    refine ⟨trivial, ?_⟩
    simp [hb, hl, hcf]

/-- C3 at three sample buses: one unreachable, one with the name taken, and a
bootstrap on the latter. -/
theorem c3_unreachable_and_name_conflict_kept_apart_witness :
    sample_bus_unreachable.talloc_zero = true ∧
    (sysbus_init 0 sample_bus_unreachable IFACE_IFP none).ret = ERR_NO_SYSBUS 0 ∧
    (sysbus_init 0 sample_bus_name_taken IFACE_IFP none).ret = EIO ∧
    (Ifp.ifp_process_init 0 sample_ifp_env_name_taken).ret = EIO :=
  ⟨rfl,
   ((c3_unreachable_and_name_conflict_kept_apart 0 sample_bus_unreachable IFACE_IFP none
      rfl).1 rfl).1,
   ((c3_unreachable_and_name_conflict_kept_apart 0 sample_bus_name_taken IFACE_IFP none
      rfl).2.1 9 rfl (by decide)).1,
   ((c3_unreachable_and_name_conflict_kept_apart 0 sample_bus_name_taken IFACE_IFP none
      rfl).2.2 sample_ifp_env_name_taken 9 rfl sample_ifp_env_name_taken_pre_wiring_ok rfl
      (by decide)).1⟩

/-- Every run of `sysbus_init` starts by allocating its `sysbus_ctx`. -/
theorem sysbus_init_allocates (idx : Nat) (w : SysbusEnv) (n : String)
    (s : Option sysbus_ctx) :
    Ev.talloc_zero .system_bus ∈ (sysbus_init idx w n s).trace := by
  unfold sysbus_init
  cases h0 : w.talloc_zero <;> cases h1 : w.dbus_bus_get <;>
    simp only [h0, h1] <;> simp only [Bool.true_eq_false, Bool.false_eq_true, if_true, if_false]
  · simp
  · simp
  · simp [sysbus_init_fail]
    split_ifs <;> simp
  · simp only [sysbus_init_fail]
    split_ifs <;> simp

/-- C4.  While the control bus is up (`ifp_ctx->sysbus` non-NULL) a reconnect
request is a no-op: the handler logs, sends the empty success reply and
returns what the send returned; the context is unchanged, and no step of
`sysbus_init` is taken, so there is no `dbus_bus_get` and no name claim. -/
theorem c4_reconnect_when_active_is_noop (idx : Nat) (w : ReconnectEnv) (dbus_req : Nat)
    (ctx : ifp_ctx) (hactive : ctx.sysbus ≠ none) :
    (ifp_sysbus_reconnect idx w dbus_req ctx).ret = w.sbus_request_return_and_finish ∧
    (ifp_sysbus_reconnect idx w dbus_req ctx).ctx = ctx ∧
    (ifp_sysbus_reconnect idx w dbus_req ctx).trace =
      [Ev.DEBUG .SSSDBG_TRACE_FUNC "Attempting to reconnect to the system bus\n",
       Ev.DEBUG .SSSDBG_TRACE_LIBS "Already connected to sysbus\n",
       Ev.sbus_request_return_and_finish dbus_req] ∧
    Ev.talloc_zero .system_bus ∉ (ifp_sysbus_reconnect idx w dbus_req ctx).trace ∧
    Ev.dbus_bus_get ∉ (ifp_sysbus_reconnect idx w dbus_req ctx).trace ∧
    (∀ c n, Ev.dbus_bus_request_name c n ∉ (ifp_sysbus_reconnect idx w dbus_req ctx).trace) := by
  have hs : ctx.sysbus.isSome = true := by
    cases h : ctx.sysbus with
    | none => exact absurd h hactive
    | some v => rfl
  simp [ifp_sysbus_reconnect, ifp_sysbus_reconnect_done, hs]

/-- C4 at a sample context whose control bus is up. -/
theorem c4_reconnect_when_active_is_noop_witness :
    sample_ifp_ctx_active.sysbus ≠ none ∧
    (ifp_sysbus_reconnect 0 sample_reconnect_ok 42 sample_ifp_ctx_active).ret = 0 ∧
    (ifp_sysbus_reconnect 0 sample_reconnect_ok 42 sample_ifp_ctx_active).ctx
      = sample_ifp_ctx_active :=
  ⟨by decide,
   (c4_reconnect_when_active_is_noop 0 sample_reconnect_ok 42 sample_ifp_ctx_active
      (by decide)).1,
   (c4_reconnect_when_active_is_noop 0 sample_reconnect_ok 42 sample_ifp_ctx_active
      (by decide)).2.1⟩

/-- A run of `sysbus_init` sends no reply. -/
theorem replies_sysbus_init (idx : Nat) (w : SysbusEnv) (n : String)
    (s : Option sysbus_ctx) : replies (sysbus_init idx w n s).trace = [] := by
  unfold replies
  rw [List.filter_eq_nil_iff]
  intro e he
  have := sysbus_init_trace_bus_steps idx w n s e he
  cases e <;> simp_all [Ev.is_bus_step]

theorem replies_append (t u : List Ev) : replies (t ++ u) = replies t ++ replies u := by
  simp [replies]

/-- Only the success path of `sysbus_init` returns `EOK`, and it stores the
new channel. -/
theorem sysbus_init_sysbus_of_EOK (idx : Nat) (w : SysbusEnv) (n : String)
    (s : Option sysbus_ctx) (h : (sysbus_init idx w n s).ret = EOK) :
    (sysbus_init idx w n s).sysbus = some { conn := w.sbus_init_connection.2 } := by
  have hENOMEM : ¬ (ENOMEM = EOK) := by decide
  have hEIO : ¬ ( EIO = EOK) := by decide
  unfold sysbus_init at h ⊢
  cases h0 : w.talloc_zero <;> cases h1 : w.dbus_bus_get <;>
    simp only [h0, h1] at h ⊢ <;>
    simp only [Bool.true_eq_false, Bool.false_eq_true, if_true, if_false] at h ⊢
  · exact absurd h hENOMEM
  · exact absurd h hENOMEM
  · rw [sysbus_init_fail_ret] at h
    exact absurd h (ERR_NO_SYSBUS_ne_EOK idx)
  · split_ifs at h ⊢ with ha hb hc
    · rw [sysbus_init_fail_ret] at h
      exact absurd h hEIO
    · rw [sysbus_init_fail_ret] at h
      exact absurd h hb
    · rw [sysbus_init_fail_ret] at h
      exact absurd h hc
    · rfl

/-- C5, the claim fails: a request served without a bus (state ABSENT) and a
request served by a successful bring-up (state ACTIVE) report the very same
outcome to the requester, the empty success reply and the same return code. -/
theorem c5_absent_reported_like_active :
    sample_ifp_ctx.sysbus = none ∧
    (sysbus_init 0 sample_reconnect_no_bus.sysbus IFACE_IFP none).ret = ERR_NO_SYSBUS 0 ∧
    (ifp_sysbus_reconnect 0 sample_reconnect_no_bus 42 sample_ifp_ctx).ctx.sysbus = none ∧
    (ifp_sysbus_reconnect 0 sample_reconnect_ok 42 sample_ifp_ctx).ctx.sysbus ≠ none ∧
    (ifp_sysbus_reconnect 0 sample_reconnect_no_bus 42 sample_ifp_ctx).reported =
      (ifp_sysbus_reconnect 0 sample_reconnect_ok 42 sample_ifp_ctx).reported := by
  decide

/-- C5 as amended.  When a reconnect request finds `ifp_ctx->sysbus` NULL and
`sysbus_init` returns `ERR_NO_SYSBUS`, the handler logs that the bus is not
available, leaves `ifp_ctx->sysbus` NULL, and still sends the empty success
reply and returns what the send returned: what reaches the requester is the
same as after a successful bring-up whose send returned the same code. -/
theorem c5_absent_reply_same_as_active (idx : Nat) (w w' : ReconnectEnv) (dbus_req : Nat)
    (ctx : ifp_ctx) (hnull : ctx.sysbus = none)
    (habsent : (sysbus_init idx w.sysbus IFACE_IFP none).ret = ERR_NO_SYSBUS idx)
    (hactive : (sysbus_init idx w'.sysbus IFACE_IFP none).ret = EOK)
    (hsend : w.sbus_request_return_and_finish = w'.sbus_request_return_and_finish) :
    (ifp_sysbus_reconnect idx w dbus_req ctx).reported =
      (w.sbus_request_return_and_finish, [Ev.sbus_request_return_and_finish dbus_req]) ∧
    (ifp_sysbus_reconnect idx w dbus_req ctx).reported =
      (ifp_sysbus_reconnect idx w' dbus_req ctx).reported ∧
    (ifp_sysbus_reconnect idx w dbus_req ctx).ctx.sysbus = none ∧
    (ifp_sysbus_reconnect idx w' dbus_req ctx).ctx.sysbus ≠ none ∧
    Ev.DEBUG .SSSDBG_MINOR_FAILURE "The system bus is not available..\n"
      ∈ (ifp_sysbus_reconnect idx w dbus_req ctx).trace := by
  have hs := sysbus_init_sysbus_of_ne idx w.sysbus IFACE_IFP none
    (by rw [habsent]; exact ERR_NO_SYSBUS_ne_EOK idx)
  have hs' := sysbus_init_sysbus_of_EOK idx w'.sysbus IFACE_IFP none hactive
  have hne : EOK ≠ ERR_NO_SYSBUS idx := fun h => ERR_NO_SYSBUS_ne_EOK idx h.symm
  have hr := replies_sysbus_init idx w.sysbus IFACE_IFP none
  have hr' := replies_sysbus_init idx w'.sysbus IFACE_IFP none
  have e1 : ifp_sysbus_reconnect idx w dbus_req ctx =
      ifp_sysbus_reconnect_done w dbus_req ctx
        ([Ev.DEBUG .SSSDBG_TRACE_FUNC "Attempting to reconnect to the system bus\n"] ++
          (sysbus_init idx w.sysbus IFACE_IFP none).trace ++
          [Ev.DEBUG .SSSDBG_MINOR_FAILURE "The system bus is not available..\n"]) := by
    simp [ifp_sysbus_reconnect, hnull, habsent, hs]
    cases ctx; simp_all
  have e2 : ifp_sysbus_reconnect idx w' dbus_req ctx =
      ifp_sysbus_reconnect_done w' dbus_req
        { ctx with sysbus := some { conn := w'.sysbus.sbus_init_connection.2 } }
        ([Ev.DEBUG .SSSDBG_TRACE_FUNC "Attempting to reconnect to the system bus\n"] ++
          (sysbus_init idx w'.sysbus IFACE_IFP none).trace ++
          [Ev.DEBUG .SSSDBG_TRACE_LIBS "Reconnected to the system bus!\n"]) := by
    simp [ifp_sysbus_reconnect, hnull, hactive, hs', hne]
  rw [e1, e2]
  simp only [ReconnectResult.reported, ifp_sysbus_reconnect_done, replies_append, hr, hr', hsend]
  refine ⟨by simp [replies], by simp [replies], hnull, by simp, by simp⟩

/-- C5 as amended, at the two sample requests. -/
theorem c5_absent_reply_same_as_active_witness :
    sample_ifp_ctx.sysbus = none ∧
    (sysbus_init 0 sample_reconnect_no_bus.sysbus IFACE_IFP none).ret = ERR_NO_SYSBUS 0 ∧
    (sysbus_init 0 sample_reconnect_ok.sysbus IFACE_IFP none).ret = EOK ∧
    (ifp_sysbus_reconnect 0 sample_reconnect_no_bus 42 sample_ifp_ctx).reported =
      (0, [Ev.sbus_request_return_and_finish 42]) :=
  ⟨rfl, by decide, by decide,
   (c5_absent_reply_same_as_active 0 sample_reconnect_no_bus sample_reconnect_ok 42
      sample_ifp_ctx rfl (by decide) (by decide) rfl).1⟩

/-- C6, the claim fails in its last clause: when the status is
`SBUS_RECONNECT_SUCCESS` and the handshake returns an error, nothing is
replayed, yet the fatal log is not the only effect, for the handshake has been
sent (and the reconnect has been logged) before it. -/
theorem c6_failed_handshake_is_not_only_a_log :
    Ev.handle_requests_after_reconnect sample_be_A.rctx
      ∉ Ifp.ifp_dp_reconnect_init SBUS_RECONNECT_SUCCESS sample_be_A EIO ∧
    Ifp.ifp_dp_reconnect_init SBUS_RECONNECT_SUCCESS sample_be_A EIO
      ≠ [Ev.DEBUG .SSSDBG_FATAL_FAILURE "Could not reconnect to A provider.\n"] ∧
    Ev.rdp_register_client sample_be_A "InfoPipe"
      ∈ Ifp.ifp_dp_reconnect_init SBUS_RECONNECT_SUCCESS sample_be_A EIO ∧
    Ev.handle_requests_after_reconnect sample_be_A.rctx
      ∉ Ssh.ssh_dp_reconnect_init SBUS_RECONNECT_SUCCESS sample_be_A EIO ∧
    Ssh.ssh_dp_reconnect_init SBUS_RECONNECT_SUCCESS sample_be_A EIO
      ≠ [Ev.DEBUG .SSSDBG_FATAL_FAILURE "Could not reconnect to A provider.\n"] ∧
    Ev.rdp_register_client sample_be_A "SSH"
      ∈ Ssh.ssh_dp_reconnect_init SBUS_RECONNECT_SUCCESS sample_be_A EIO := by
  decide

/-- C6 as amended.  In both reconnect callbacks, for every status, handshake
result and backend link: requests are replayed exactly when the status is
`SBUS_RECONNECT_SUCCESS` and `rdp_register_client` returned `EOK`, and then
the run is the reconnect log, one handshake with the responder's label, and
the replay, in this order.  For any other status the handshake is not
attempted and the only effect is the fatal log naming the domain.  When the
status is `SBUS_RECONNECT_SUCCESS` and the handshake failed, the run is the
reconnect log, the one handshake, and the fatal log naming the domain. -/
theorem c6_reconnect_callbacks (status : Int) (rdp : Int) (be : be_conn) :
    ((∃ r, Ev.handle_requests_after_reconnect r ∈ Ifp.ifp_dp_reconnect_init status be rdp) ↔
      status = SBUS_RECONNECT_SUCCESS ∧ rdp = EOK) ∧
    (status = SBUS_RECONNECT_SUCCESS → rdp = EOK →
      Ifp.ifp_dp_reconnect_init status be rdp =
        [Ev.DEBUG .SSSDBG_TRACE_FUNC "Reconnected to the Data Provider.\n",
         Ev.rdp_register_client be "InfoPipe",
         Ev.handle_requests_after_reconnect be.rctx]) ∧
    (status ≠ SBUS_RECONNECT_SUCCESS →
      Ifp.ifp_dp_reconnect_init status be rdp =
        [Ev.DEBUG .SSSDBG_FATAL_FAILURE
           ("Could not reconnect to " ++ be.domain ++ " provider.\n")]) ∧
    (status = SBUS_RECONNECT_SUCCESS → rdp ≠ EOK →
      Ifp.ifp_dp_reconnect_init status be rdp =
        [Ev.DEBUG .SSSDBG_TRACE_FUNC "Reconnected to the Data Provider.\n",
         Ev.rdp_register_client be "InfoPipe",
         Ev.DEBUG .SSSDBG_FATAL_FAILURE
           ("Could not reconnect to " ++ be.domain ++ " provider.\n")]) ∧
    ((∃ r, Ev.handle_requests_after_reconnect r ∈ Ssh.ssh_dp_reconnect_init status be rdp) ↔
      status = SBUS_RECONNECT_SUCCESS ∧ rdp = EOK) ∧
    (status = SBUS_RECONNECT_SUCCESS → rdp = EOK →
      Ssh.ssh_dp_reconnect_init status be rdp =
        [Ev.DEBUG .SSSDBG_TRACE_FUNC "Reconnected to the Data Provider.\n",
         Ev.rdp_register_client be "SSH",
         Ev.handle_requests_after_reconnect be.rctx]) ∧
    (status ≠ SBUS_RECONNECT_SUCCESS →
      Ssh.ssh_dp_reconnect_init status be rdp =
        [Ev.DEBUG .SSSDBG_FATAL_FAILURE
           ("Could not reconnect to " ++ be.domain ++ " provider.\n")]) ∧
    (status = SBUS_RECONNECT_SUCCESS → rdp ≠ EOK →
      Ssh.ssh_dp_reconnect_init status be rdp =
        [Ev.DEBUG .SSSDBG_TRACE_FUNC "Reconnected to the Data Provider.\n",
         Ev.rdp_register_client be "SSH",
         Ev.DEBUG .SSSDBG_FATAL_FAILURE
           ("Could not reconnect to " ++ be.domain ++ " provider.\n")]) := by
  unfold Ifp.ifp_dp_reconnect_init Ssh.ssh_dp_reconnect_init
  by_cases hs : status = SBUS_RECONNECT_SUCCESS <;> by_cases hr : rdp = EOK <;>
    simp [hs, hr]

/-! ## Lemmas on the reconnect wiring -/

theorem wiring_calls_append (t u : List Ev) :
    wiring_calls (t ++ u) = wiring_calls t ++ wiring_calls u := by
  simp [wiring_calls]

theorem wiring_calls_be_conns_loop (cb : Callback) (mr : Int) (l : List be_conn) :
    wiring_calls (be_conns_loop cb mr l) = be_conns_loop cb mr l := by
  induction l with
  | nil => rfl
  | cons b l ih =>
    simp only [be_conns_loop, wiring_calls, List.filter_cons] at ih ⊢
    simp [ih]

theorem wiring_calls_of_config_steps (t : List Ev) (ht : ∀ e ∈ t, e.is_config_step = true) :
    wiring_calls t = [] := by
  unfold wiring_calls
  rw [List.filter_eq_nil_iff]
  intro e he
  have := ht e he
  cases e <;> simp_all [Ev.is_config_step]

theorem wiring_calls_sysbus_init (idx : Nat) (w : SysbusEnv) (n : String)
    (s : Option sysbus_ctx) : wiring_calls (sysbus_init idx w n s).trace = [] := by
  unfold wiring_calls
  rw [List.filter_eq_nil_iff]
  intro e he
  have := sysbus_init_trace_bus_steps idx w n s e he
  cases e <;> simp_all [Ev.is_bus_step]

/-- The tail of `ifp_process_init` makes the wiring calls of the loop and no
other, whatever the control bus and the scheduling answer, and hands the list
of links back as it was. -/
theorem Ifp.ifp_process_init_wire_calls (idx : Nat) (w : Ifp.Env) (rctx : resp_ctx)
    (c : ifp_ctx) (mr : Int) (t : List Ev) :
    wiring_calls (Ifp.ifp_process_init_wire idx w rctx c mr t).trace =
      wiring_calls t ++ be_conns_loop .ifp_dp_reconnect_init mr rctx.be_conns ∧
    ∃ r, (Ifp.ifp_process_init_wire idx w rctx c mr t).rctx = some r ∧
      r.be_conns = rctx.be_conns := by
  have hb := wiring_calls_sysbus_init idx w.sysbus IFACE_IFP c.sysbus
  have hl := wiring_calls_be_conns_loop .ifp_dp_reconnect_init mr rctx.be_conns
  unfold Ifp.ifp_process_init_wire Ifp.ifp_process_init_sched process_init_fail
  simp only
  split_ifs <;>
    simp only [wiring_calls_append, hb, hl, List.append_nil] <;>
    simp [wiring_calls]

/-- The tail of `ssh_process_init` makes no wiring call and hands the list of
links back as it was. -/
theorem Ssh.ssh_process_init_options_calls (w : Ssh.Env) (rctx : resp_ctx) (c : ssh_ctx)
    (t : List Ev) :
    wiring_calls (Ssh.ssh_process_init_options w rctx c t).trace = wiring_calls t ∧
    ∃ r, (Ssh.ssh_process_init_options w rctx c t).rctx = some r ∧
      r.be_conns = rctx.be_conns := by
  unfold Ssh.ssh_process_init_options process_init_fail
  simp only
  split_ifs <;>
    simp only [wiring_calls_append, List.append_nil] <;>
    simp [wiring_calls]

/-- When its first steps succeed, `ssh_process_init` is the wiring loop
followed by its tail. -/
theorem Ssh.ssh_process_init_of_pre_wiring_ok (w : Ssh.Env) (h : Ssh.pre_wiring_ok w) :
    ∃ (c : ssh_ctx) (t : List Ev),
      (∀ e ∈ t, e.is_config_step = true) ∧
      Ev.confdb_get_int .CONFDB_SSH_CONF_ENTRY .CONFDB_SERVICE_RECON_RETRIES 3 ∈ t ∧
      Ssh.ssh_process_init w =
        Ssh.ssh_process_init_options w
          { w.sss_process_init.2 with pvt_ctx := .ssh c } c
          (t ++ be_conns_loop .ssh_dp_reconnect_init
            (w.confdb_get_int .CONFDB_SSH_CONF_ENTRY .CONFDB_SERVICE_RECON_RETRIES 3).2
            w.sss_process_init.2.be_conns) := by
  obtain ⟨h1, h2, h3, h4⟩ := h
  simp only [Ssh.ssh_process_init, h1, h2, h3, h4, ne_eq, not_true_eq_false, if_false,
    Bool.true_eq_false]
  refine ⟨_, _, ?_, ?_, rfl⟩
  · simp [Ev.is_config_step]
  · simp

theorem sample_ifp_env_pre_wiring_ok : Ifp.pre_wiring_ok sample_ifp_env := by
  simp [Ifp.pre_wiring_ok, sample_ifp_env, EOK]

theorem sample_ssh_env_pre_wiring_ok : Ssh.pre_wiring_ok sample_ssh_env := by
  simp [Ssh.pre_wiring_ok, sample_ssh_env, EOK]

/-- C7.  In both responders, once the steps before the wiring have succeeded,
the `sbus_reconnect_init` calls of the whole bootstrap are exactly one per
entry of `rctx->be_conns`, in list order, each with that link's connection,
the retry count that `confdb_get_int` produced when asked with default 3, the
responder's own callback, and the link itself as callback data.  This holds
whatever the later steps answer, and the list of links is handed back
unchanged. -/
theorem c7_wiring_once_per_link (idx : Nat) :
    (∀ w : Ifp.Env, Ifp.pre_wiring_ok w →
      wiring_calls (Ifp.ifp_process_init idx w).trace =
        w.sss_process_init.2.be_conns.map (fun b =>
          Ev.sbus_reconnect_init b.conn
            (w.confdb_get_int .CONFDB_IFP_CONF_ENTRY .CONFDB_SERVICE_RECON_RETRIES 3).2
            .ifp_dp_reconnect_init b) ∧
      (wiring_calls (Ifp.ifp_process_init idx w).trace).length
        = w.sss_process_init.2.be_conns.length ∧
      Ev.confdb_get_int .CONFDB_IFP_CONF_ENTRY .CONFDB_SERVICE_RECON_RETRIES 3
        ∈ (Ifp.ifp_process_init idx w).trace ∧
      ∃ r, (Ifp.ifp_process_init idx w).rctx = some r ∧
        r.be_conns = w.sss_process_init.2.be_conns) ∧
    (∀ w : Ssh.Env, Ssh.pre_wiring_ok w →
      wiring_calls (Ssh.ssh_process_init w).trace =
        w.sss_process_init.2.be_conns.map (fun b =>
          Ev.sbus_reconnect_init b.conn
            (w.confdb_get_int .CONFDB_SSH_CONF_ENTRY .CONFDB_SERVICE_RECON_RETRIES 3).2
            .ssh_dp_reconnect_init b) ∧
      (wiring_calls (Ssh.ssh_process_init w).trace).length
        = w.sss_process_init.2.be_conns.length ∧
      Ev.confdb_get_int .CONFDB_SSH_CONF_ENTRY .CONFDB_SERVICE_RECON_RETRIES 3
        ∈ (Ssh.ssh_process_init w).trace ∧
      ∃ r, (Ssh.ssh_process_init w).rctx = some r ∧
        r.be_conns = w.sss_process_init.2.be_conns) := by
  constructor
  · intro w hpre
    obtain ⟨c, uids, t, -, ht, hmem, heq⟩ := Ifp.ifp_process_init_of_pre_wiring_ok idx w hpre
    obtain ⟨hcalls, r, hr, hbe⟩ := Ifp.ifp_process_init_wire_calls idx w
      { be_conns := w.sss_process_init.2.be_conns, allowed_uids := uids, pvt_ctx := .ifp c } c
      (w.confdb_get_int .CONFDB_IFP_CONF_ENTRY .CONFDB_SERVICE_RECON_RETRIES 3).2 t
    rw [wiring_calls_of_config_steps t ht, List.nil_append, be_conns_loop_eq_map] at hcalls
    rw [heq]
    refine ⟨hcalls, by rw [hcalls, List.length_map], ?_, r, hr, hbe⟩
    -- the read of the retry count is part of the configuration trace
    unfold Ifp.ifp_process_init_wire Ifp.ifp_process_init_sched process_init_fail
    simp only
    split_ifs <;> simp [hmem]
  · intro w hpre
    obtain ⟨c, t, ht, hmem, heq⟩ := Ssh.ssh_process_init_of_pre_wiring_ok w hpre
    obtain ⟨hcalls, r, hr, hbe⟩ := Ssh.ssh_process_init_options_calls w
      { w.sss_process_init.2 with pvt_ctx := .ssh c } c
      (t ++ be_conns_loop .ssh_dp_reconnect_init
        (w.confdb_get_int .CONFDB_SSH_CONF_ENTRY .CONFDB_SERVICE_RECON_RETRIES 3).2
        w.sss_process_init.2.be_conns)
    have hloop : wiring_calls (t ++ be_conns_loop .ssh_dp_reconnect_init
        (w.confdb_get_int .CONFDB_SSH_CONF_ENTRY .CONFDB_SERVICE_RECON_RETRIES 3).2
        w.sss_process_init.2.be_conns) =
        w.sss_process_init.2.be_conns.map (fun b =>
          Ev.sbus_reconnect_init b.conn
            (w.confdb_get_int .CONFDB_SSH_CONF_ENTRY .CONFDB_SERVICE_RECON_RETRIES 3).2
            .ssh_dp_reconnect_init b) := by
      rw [wiring_calls_append, wiring_calls_of_config_steps t ht, List.nil_append,
        wiring_calls_be_conns_loop, be_conns_loop_eq_map]
    rw [hloop] at hcalls
    rw [heq]
    refine ⟨hcalls, by rw [hcalls, List.length_map], ?_, r, hr, hbe⟩
    unfold Ssh.ssh_process_init_options process_init_fail
    simp only
    split_ifs <;> simp [hmem]

/-- C7 at the two sample bootstraps, whose options are unset: both links are
wired with the default of 3 retries. -/
theorem c7_wiring_once_per_link_witness :
    Ifp.pre_wiring_ok sample_ifp_env ∧ Ssh.pre_wiring_ok sample_ssh_env ∧
    wiring_calls (Ifp.ifp_process_init 0 sample_ifp_env).trace =
      [Ev.sbus_reconnect_init 1 3 .ifp_dp_reconnect_init sample_be_A,
       Ev.sbus_reconnect_init 2 3 .ifp_dp_reconnect_init sample_be_B] ∧
    wiring_calls (Ssh.ssh_process_init sample_ssh_env).trace =
      [Ev.sbus_reconnect_init 1 3 .ssh_dp_reconnect_init sample_be_A,
       Ev.sbus_reconnect_init 2 3 .ssh_dp_reconnect_init sample_be_B] :=
  ⟨sample_ifp_env_pre_wiring_ok, sample_ssh_env_pre_wiring_ok,
   ((c7_wiring_once_per_link 0).1 sample_ifp_env sample_ifp_env_pre_wiring_ok).1,
   ((c7_wiring_once_per_link 0).2 sample_ssh_env sample_ssh_env_pre_wiring_ok).1⟩

/-- When the configuration phase succeeds and `sysbus_init` fails with a code
other than `ERR_NO_SYSBUS`, `ifp_process_init` takes its early return: it
frees `ifp_ctx` only and returns `EIO`. -/
theorem Ifp.ifp_process_init_sysbus_fatal (idx : Nat) (w : Ifp.Env)
    (hpre : Ifp.pre_wiring_ok w)
    (h1 : (sysbus_init idx w.sysbus IFACE_IFP none).ret ≠ ERR_NO_SYSBUS idx)
    (h2 : (sysbus_init idx w.sysbus IFACE_IFP none).ret ≠ EOK) :
    (Ifp.ifp_process_init idx w).ret = EIO ∧
    Ev.talloc_free .ifp_ctx ∈ (Ifp.ifp_process_init idx w).trace ∧
    Ev.talloc_free .rctx ∉ (Ifp.ifp_process_init idx w).trace := by
  obtain ⟨c, uids, t, hc, ht, -, heq⟩ := Ifp.ifp_process_init_of_pre_wiring_ok idx w hpre
  have hb := not_mem_sysbus_init_trace idx w.sysbus IFACE_IFP none (Ev.talloc_free .rctx) rfl
  have hl := not_mem_be_conns_loop .ifp_dp_reconnect_init
    (w.confdb_get_int .CONFDB_IFP_CONF_ENTRY .CONFDB_SERVICE_RECON_RETRIES 3).2
    w.sss_process_init.2.be_conns (Ev.talloc_free .rctx) (by simp)
  have hcf := not_mem_of_config_steps t ht (Ev.talloc_free .rctx) rfl
  rw [heq]
  simp only [Ifp.ifp_process_init_wire, hc, h1, h2, if_false, ne_eq, not_false_eq_true, if_true]
  refine ⟨trivial, by simp, ?_⟩
  simp [hb, hl, hcf]

/-- C8, the code at the failing input.  On a bootstrap whose bus name is
already owned, `ifp_process_init` returns `EIO` after freeing `ifp_ctx`, and
`rctx` is never freed: the early return does not pass through `fail:`. -/
theorem c8_sysbus_failure_leaves_rctx_allocated (idx : Nat) :
    (Ifp.ifp_process_init idx sample_ifp_env_name_taken).ret = EIO ∧
    (Ifp.ifp_process_init idx sample_ifp_env_name_taken).ret ≠ EOK ∧
    Ev.talloc_free .ifp_ctx ∈ (Ifp.ifp_process_init idx sample_ifp_env_name_taken).trace ∧
    Ev.talloc_free .rctx ∉ (Ifp.ifp_process_init idx sample_ifp_env_name_taken).trace := by
  have hr : (sysbus_init idx sample_ifp_env_name_taken.sysbus IFACE_IFP none).ret = EIO := rfl
  have h := Ifp.ifp_process_init_sysbus_fatal idx sample_ifp_env_name_taken
    sample_ifp_env_name_taken_pre_wiring_ok
    (by rw [hr]; exact fun h => EIO_ne_ERR_NO_SYSBUS_code idx h.symm)
    (by rw [hr]; decide)
  exact ⟨h.1, by rw [h.1]; decide, h.2.1, h.2.2⟩

/-- C10.  In both responders, `main` returns 1 on an invalid option; with
valid options it returns 2 exactly when `server_setup` fails, 3 exactly when
`server_setup` succeeds and the responder's `*_process_init` returns a code
other than `EOK`, and 0 exactly when both succeed and `server_loop` returns,
the call of `server_loop` then being the last step of the run.  The result of
`die_if_parent_died` has no influence on the exit code, and the codes 1, 2
and 3 are pairwise distinct. -/
theorem c10_exit_code_identifies_phase (idx : Nat) :
    (∀ w : MainEnv Ifp.Env,
      (w.poptGetNextOpt ≠ -1 → (Ifp.main idx w).exit = some 1) ∧
      (w.poptGetNextOpt = -1 →
        ((Ifp.main idx w).exit = some 2 ↔ w.server_setup ≠ EOK) ∧
        ((Ifp.main idx w).exit = some 3 ↔
          w.server_setup = EOK ∧ (Ifp.ifp_process_init idx w.process_init).ret ≠ EOK) ∧
        ((Ifp.main idx w).exit = some 0 ↔
          w.server_setup = EOK ∧ (Ifp.ifp_process_init idx w.process_init).ret = EOK ∧
            w.server_loop_returns = true) ∧
        ((Ifp.main idx w).exit = some 0 →
          (Ifp.main idx w).trace.getLast? = some Ev.server_loop) ∧
        (Ifp.main idx w).exit ≠ some 1) ∧
      (∀ d, (Ifp.main idx { w with die_if_parent_died := d }).exit = (Ifp.main idx w).exit)) ∧
    (∀ w : MainEnv Ssh.Env,
      (w.poptGetNextOpt ≠ -1 → (Ssh.main w).exit = some 1) ∧
      (w.poptGetNextOpt = -1 →
        ((Ssh.main w).exit = some 2 ↔ w.server_setup ≠ EOK) ∧
        ((Ssh.main w).exit = some 3 ↔
          w.server_setup = EOK ∧ (Ssh.ssh_process_init w.process_init).ret ≠ EOK) ∧
        ((Ssh.main w).exit = some 0 ↔
          w.server_setup = EOK ∧ (Ssh.ssh_process_init w.process_init).ret = EOK ∧
            w.server_loop_returns = true) ∧
        ((Ssh.main w).exit = some 0 →
          (Ssh.main w).trace.getLast? = some Ev.server_loop) ∧
        (Ssh.main w).exit ≠ some 1) ∧
      (∀ d, (Ssh.main { w with die_if_parent_died := d }).exit = (Ssh.main w).exit)) ∧
    ((1 : Int) ≠ 2 ∧ (1 : Int) ≠ 3 ∧ (2 : Int) ≠ 3) := by
  refine ⟨?_, ?_, by decide⟩
  · intro w
    refine ⟨?_, ?_, ?_⟩
    · intro h
      simp [Ifp.main, h]
    · intro h
      by_cases hs : w.server_setup = EOK <;>
        by_cases hi : (Ifp.ifp_process_init idx w.process_init).ret = EOK <;>
        cases hl : w.server_loop_returns <;>
        simp [Ifp.main, h, hs, hi, hl]
    · intro d
      by_cases ho : w.poptGetNextOpt = -1 <;>
        by_cases hs : w.server_setup = EOK <;>
        by_cases hi : (Ifp.ifp_process_init idx w.process_init).ret = EOK <;>
        simp [Ifp.main, ho, hs, hi]
  · intro w
    refine ⟨?_, ?_, ?_⟩
    · intro h
      simp [Ssh.main, h]
    · intro h
      by_cases hs : w.server_setup = EOK <;>
        by_cases hi : (Ssh.ssh_process_init w.process_init).ret = EOK <;>
        cases hl : w.server_loop_returns <;>
        simp [Ssh.main, h, hs, hi, hl]
    · intro d
      by_cases ho : w.poptGetNextOpt = -1 <;>
        by_cases hs : w.server_setup = EOK <;>
        by_cases hi : (Ssh.ssh_process_init w.process_init).ret = EOK <;>
        simp [Ssh.main, ho, hs, hi]

/-- C10 at sample starts: an invalid option, a failed base setup, a failed
responder initialisation, and a complete run whose `die_if_parent_died`
failed. -/
theorem c10_exit_code_identifies_phase_witness :
    (Ifp.main 0 (sample_ifp_main 7 0 0)).exit = some 1 ∧
    (Ssh.main (sample_ssh_main (-1) 5)).exit = some 2 ∧
    (Ssh.main (sample_ssh_main (-1) 0)).exit = some 3 ∧
    (Ifp.main 0 (sample_ifp_main (-1) 0 1)).exit = some 0 :=
  ⟨((c10_exit_code_identifies_phase 0).1 (sample_ifp_main 7 0 0)).1 (by decide),
   ((((c10_exit_code_identifies_phase 0).2.1 (sample_ssh_main (-1) 5)).2.1 rfl).1).2
     (by decide),
   ((((c10_exit_code_identifies_phase 0).2.1 (sample_ssh_main (-1) 0)).2.1 rfl).2.1).2
     ⟨rfl, by decide⟩,
   ((((c10_exit_code_identifies_phase 0).1 (sample_ifp_main (-1) 0 1)).2.1 rfl).2.2.1).2
     ⟨rfl, by decide, rfl⟩⟩

/-! ## How a bootstrap can end -/

/-- The tail of `ifp_process_init` ends in one of three ways: it completes, it
leaves through `fail:` with an error code, or it takes the control-bus early
return. -/
theorem Ifp.ifp_process_init_wire_outcomes (idx : Nat) (w : Ifp.Env) (rctx : resp_ctx)
    (c : ifp_ctx) (mr : Int) (t : List Ev) (hc : c.sysbus = none)
    (h1 : Ev.talloc_free .rctx ∉ t) (h2 : Ev.talloc_free .ifp_ctx ∉ t) :
    ((Ifp.ifp_process_init_wire idx w rctx c mr t).ret = EOK ∧
      Ev.talloc_free .rctx ∉ (Ifp.ifp_process_init_wire idx w rctx c mr t).trace ∧
      Ev.talloc_free .ifp_ctx ∉ (Ifp.ifp_process_init_wire idx w rctx c mr t).trace ∧
      Ev.schedule_get_domains_task ∈ (Ifp.ifp_process_init_wire idx w rctx c mr t).trace) ∨
    ((Ifp.ifp_process_init_wire idx w rctx c mr t).ret ≠ EOK ∧
      Ev.talloc_free .rctx ∈ (Ifp.ifp_process_init_wire idx w rctx c mr t).trace) ∨
    ((Ifp.ifp_process_init_wire idx w rctx c mr t).ret = EIO ∧
      Ev.talloc_free .rctx ∉ (Ifp.ifp_process_init_wire idx w rctx c mr t).trace ∧
      Ev.talloc_free .ifp_ctx ∈ (Ifp.ifp_process_init_wire idx w rctx c mr t).trace ∧
      (sysbus_init idx w.sysbus IFACE_IFP none).ret ≠ EOK ∧
      (sysbus_init idx w.sysbus IFACE_IFP none).ret ≠ ERR_NO_SYSBUS idx) := by
  have hb1 := not_mem_sysbus_init_trace idx w.sysbus IFACE_IFP none (Ev.talloc_free .rctx) rfl
  have hb2 := not_mem_sysbus_init_trace idx w.sysbus IFACE_IFP none (Ev.talloc_free .ifp_ctx) rfl
  have hl1 := not_mem_be_conns_loop .ifp_dp_reconnect_init mr rctx.be_conns
    (Ev.talloc_free .rctx) (by simp)
  have hl2 := not_mem_be_conns_loop .ifp_dp_reconnect_init mr rctx.be_conns
    (Ev.talloc_free .ifp_ctx) (by simp)
  simp only [Ifp.ifp_process_init_wire, Ifp.ifp_process_init_sched, process_init_fail, hc]
  by_cases hn : (sysbus_init idx w.sysbus IFACE_IFP none).ret = ERR_NO_SYSBUS idx
  · by_cases hsch : w.schedule_get_domains_task = EOK
    · left
      simp [hn, hsch, h1, h2, hb1, hb2, hl1, hl2]
    · right; left
      simp [hn, hsch]
  · by_cases hok : (sysbus_init idx w.sysbus IFACE_IFP none).ret = EOK
    · have hne : ¬ (EOK = ERR_NO_SYSBUS idx) := fun h => ERR_NO_SYSBUS_ne_EOK idx h.symm
      by_cases hsch : w.schedule_get_domains_task = EOK
      · left
        simp [hok, hne, hsch, h1, h2, hb1, hb2, hl1, hl2]
      · right; left
        simp [hok, hne, hsch]
    · right; right
      simp [hn, hok, h1, hb1, hl1]

/-- Once `sss_process_init` has succeeded, `ifp_process_init` ends in one of
four ways.  It completes: it returns `EOK`, has scheduled domain discovery and
has freed neither context.  It leaves through `fail:` with an error: it
returns a code other than `EOK` and has freed `rctx`.  It takes the
control-bus early return: `sysbus_init` failed with a code other than
`ERR_NO_SYSBUS`, it returns `EIO` and has freed `ifp_ctx` but not `rctx`.
Or the attribute whitelist could not be parsed: it has freed `rctx` and
returns `EOK`. -/
theorem Ifp.ifp_process_init_outcomes (idx : Nat) (w : Ifp.Env)
    (hsss : w.sss_process_init.1 = EOK) :
    ((Ifp.ifp_process_init idx w).ret = EOK ∧
      Ev.talloc_free .rctx ∉ (Ifp.ifp_process_init idx w).trace ∧
      Ev.talloc_free .ifp_ctx ∉ (Ifp.ifp_process_init idx w).trace ∧
      Ev.schedule_get_domains_task ∈ (Ifp.ifp_process_init idx w).trace) ∨
    ((Ifp.ifp_process_init idx w).ret ≠ EOK ∧
      Ev.talloc_free .rctx ∈ (Ifp.ifp_process_init idx w).trace) ∨
    ((Ifp.ifp_process_init idx w).ret = EIO ∧
      Ev.talloc_free .rctx ∉ (Ifp.ifp_process_init idx w).trace ∧
      Ev.talloc_free .ifp_ctx ∈ (Ifp.ifp_process_init idx w).trace ∧
      (sysbus_init idx w.sysbus IFACE_IFP none).ret ≠ EOK ∧
      (sysbus_init idx w.sysbus IFACE_IFP none).ret ≠ ERR_NO_SYSBUS idx) ∨
    ((Ifp.ifp_process_init idx w).ret = EOK ∧
      Ev.talloc_free .rctx ∈ (Ifp.ifp_process_init idx w).trace ∧
      w.ifp_parse_user_attr_list
        (w.confdb_get_string .CONFDB_IFP_CONF_ENTRY .CONFDB_IFP_USER_ATTR_LIST none).2
        = none) := by
  have hENOMEM : ¬ (ENOMEM = EOK) := by decide
  by_cases h2 : w.talloc_zero = true
  swap
  · right; left
    simp [Ifp.ifp_process_init, hsss, h2, process_init_fail, hENOMEM]
  by_cases h3 : w.sss_names_init_from_args = EOK
  swap
  · right; left
    simp [Ifp.ifp_process_init, hsss, h2, h3, process_init_fail]
  by_cases h4 : (w.confdb_get_string .CONFDB_IFP_CONF_ENTRY .CONFDB_SERVICE_ALLOWED_UIDS
      (some "0")).1 = EOK
  swap
  · right; left
    simp [Ifp.ifp_process_init, hsss, h2, h3, h4, process_init_fail]
  by_cases h5 : (w.csv_string_to_uid_array
      (w.confdb_get_string .CONFDB_IFP_CONF_ENTRY .CONFDB_SERVICE_ALLOWED_UIDS
        (some "0")).2).1 = EOK
  swap
  · right; left
    simp [Ifp.ifp_process_init, hsss, h2, h3, h4, h5, process_init_fail]
  by_cases h6 : (w.confdb_get_string .CONFDB_IFP_CONF_ENTRY .CONFDB_IFP_USER_ATTR_LIST
      none).1 = EOK
  swap
  · right; left
    simp [Ifp.ifp_process_init, hsss, h2, h3, h4, h5, h6, process_init_fail]
  by_cases h7 : w.ifp_parse_user_attr_list
      (w.confdb_get_string .CONFDB_IFP_CONF_ENTRY .CONFDB_IFP_USER_ATTR_LIST none).2 = none
  · right; right; right
    simp [Ifp.ifp_process_init, hsss, h2, h3, h4, h5, h6, h7, process_init_fail]
  by_cases h8 : (w.confdb_get_int .CONFDB_IFP_CONF_ENTRY .CONFDB_SERVICE_RECON_RETRIES 3).1
      = EOK
  swap
  · right; left
    simp [Ifp.ifp_process_init, Ifp.ifp_process_init_limits, hsss, h2, h3, h4, h5, h6, h7, h8,
      process_init_fail]
  by_cases h9 : (w.confdb_get_string .CONFDB_IFP_CONF_ENTRY .CONFDB_IFP_WILDCARD_LIMIT
      none).1 = EOK
  swap
  · right; left
    simp [Ifp.ifp_process_init, Ifp.ifp_process_init_limits, hsss, h2, h3, h4, h5, h6, h7, h8,
      h9, process_init_fail]
  by_cases h10 : ∀ s, (w.confdb_get_string .CONFDB_IFP_CONF_ENTRY .CONFDB_IFP_WILDCARD_LIMIT
      none).2 = some s → (w.strtouint32 s).2 = EOK
  swap
  · right; left
    push_neg at h10
    obtain ⟨str, hstr, herr⟩ := h10
    simp [Ifp.ifp_process_init, Ifp.ifp_process_init_limits, hsss, h2, h3, h4, h5, h6, h7, h8,
      h9, hstr, herr, process_init_fail]
  obtain ⟨c, uids, t, hc, ht, -, heq⟩ := Ifp.ifp_process_init_of_pre_wiring_ok idx w
    ⟨hsss, h2, h3, h4, h5, h6, h7, h8, h9, h10⟩
  rw [heq]
  rcases Ifp.ifp_process_init_wire_outcomes idx w _ c _ t hc
      (not_mem_of_config_steps t ht _ rfl) (not_mem_of_config_steps t ht _ rfl) with h | h | h
  · exact Or.inl h
  · exact Or.inr (Or.inl h)
  · exact Or.inr (Or.inr (Or.inl h))

/-- The four ways of ending, at the sample bootstrap whose whitelist cannot be
parsed: it is the fourth that occurs. -/
theorem Ifp.ifp_process_init_outcomes_witness :
    sample_ifp_env_whitelist_null.sss_process_init.1 = EOK ∧
    ((Ifp.ifp_process_init 0 sample_ifp_env_whitelist_null).ret = EOK ∧
      Ev.talloc_free .rctx ∈ (Ifp.ifp_process_init 0 sample_ifp_env_whitelist_null).trace) :=
  ⟨rfl,
   (Ifp.ifp_process_init_outcomes 0 sample_ifp_env_whitelist_null rfl).elim
     (fun _ => by decide) (fun _ => by decide)⟩

/-- Once `sss_process_init` has succeeded, `ssh_process_init` ends in one of
two ways: it returns `EOK`, has scheduled domain discovery and has not freed
`rctx`; or it returns a code other than `EOK` and has freed `rctx`. -/
theorem Ssh.ssh_process_init_outcomes (w : Ssh.Env) (hsss : w.sss_process_init.1 = EOK) :
    ((Ssh.ssh_process_init w).ret = EOK ∧
      Ev.talloc_free .rctx ∉ (Ssh.ssh_process_init w).trace ∧
      Ev.schedule_get_domains_task ∈ (Ssh.ssh_process_init w).trace) ∨
    ((Ssh.ssh_process_init w).ret ≠ EOK ∧
      Ev.talloc_free .rctx ∈ (Ssh.ssh_process_init w).trace) := by
  have hENOMEM : ¬ (ENOMEM = EOK) := by decide
  by_cases h2 : w.talloc_zero = true
  swap
  · right
    simp [Ssh.ssh_process_init, hsss, h2, process_init_fail, hENOMEM]
  by_cases h3 : w.sss_names_init_from_args = EOK
  swap
  · right
    simp [Ssh.ssh_process_init, hsss, h2, h3, process_init_fail]
  by_cases h4 : (w.confdb_get_int .CONFDB_SSH_CONF_ENTRY .CONFDB_SERVICE_RECON_RETRIES 3).1
      = EOK
  swap
  · right
    simp [Ssh.ssh_process_init, hsss, h2, h3, h4, process_init_fail]
  have hl := not_mem_be_conns_loop .ssh_dp_reconnect_init
    (w.confdb_get_int .CONFDB_SSH_CONF_ENTRY .CONFDB_SERVICE_RECON_RETRIES 3).2
    w.sss_process_init.2.be_conns (Ev.talloc_free .rctx) (by simp)
  by_cases h5 : (w.confdb_get_bool .CONFDB_SSH_CONF_ENTRY .CONFDB_SSH_HASH_KNOWN_HOSTS
      w.CONFDB_DEFAULT_SSH_HASH_KNOWN_HOSTS).1 = EOK
  swap
  · right
    simp [Ssh.ssh_process_init, Ssh.ssh_process_init_options, hsss, h2, h3, h4, h5,
      process_init_fail]
  by_cases h6 : (w.confdb_get_int .CONFDB_SSH_CONF_ENTRY .CONFDB_SSH_KNOWN_HOSTS_TIMEOUT
      w.CONFDB_DEFAULT_SSH_KNOWN_HOSTS_TIMEOUT).1 = EOK
  swap
  · right
    simp [Ssh.ssh_process_init, Ssh.ssh_process_init_options, hsss, h2, h3, h4, h5, h6,
      process_init_fail]
  by_cases h7 : (w.confdb_get_string .CONFDB_SSH_CONF_ENTRY .CONFDB_SSH_CA_DB
      (some w.CONFDB_DEFAULT_SSH_CA_DB)).1 = EOK
  swap
  · right
    simp [Ssh.ssh_process_init, Ssh.ssh_process_init_options, hsss, h2, h3, h4, h5, h6, h7,
      process_init_fail]
  by_cases h8 : w.schedule_get_domains_task = EOK
  swap
  · right
    simp [Ssh.ssh_process_init, Ssh.ssh_process_init_options, hsss, h2, h3, h4, h5, h6, h7, h8,
      process_init_fail]
  left
  simp [Ssh.ssh_process_init, Ssh.ssh_process_init_options, hsss, h2, h3, h4, h5, h6, h7, h8, hl]

/-- The two ways of ending, at the sample SSH bootstrap. -/
theorem Ssh.ssh_process_init_outcomes_witness :
    sample_ssh_env.sss_process_init.1 = EOK ∧
    (Ssh.ssh_process_init sample_ssh_env).ret = EOK ∧
    Ev.talloc_free .rctx ∉ (Ssh.ssh_process_init sample_ssh_env).trace :=
  ⟨rfl,
   (Ssh.ssh_process_init_outcomes sample_ssh_env rfl).elim
     (fun h => ⟨h.1, h.2.1⟩) (fun h => absurd (by decide) h.1)⟩

/-- Every exit of `sysbus_init` other than success gives back what it took:
once its `sysbus_ctx` was allocated, a run that does not return `EOK` ends by
freeing that allocation, and it has dropped its reference to the bus
connection if one was obtained. -/
theorem sysbus_init_failure_releases (idx : Nat) (w : SysbusEnv) (n : String)
    (s : Option sysbus_ctx) (halloc : w.talloc_zero = true)
    (hret : (sysbus_init idx w n s).ret ≠ EOK) :
    (sysbus_init idx w n s).trace.getLast? = some (Ev.talloc_free .system_bus) ∧
    (∀ conn, w.dbus_bus_get = some conn →
      Ev.dbus_connection_unref conn ∈ (sysbus_init idx w n s).trace) ∧
    (sysbus_init idx w n s).sysbus = s := by
  refine ⟨?_, ?_, sysbus_init_sysbus_of_ne idx w n s hret⟩
  · unfold sysbus_init at hret ⊢
    cases h1 : w.dbus_bus_get <;>
      simp only [halloc, h1, Bool.true_eq_false, if_false] at hret ⊢
    · simp [sysbus_init_fail]
    · split_ifs at hret ⊢
      · simp [sysbus_init_fail]
      · simp [sysbus_init_fail]
      · simp [sysbus_init_fail]
      · exact absurd rfl hret
  · intro conn h1
    unfold sysbus_init at hret ⊢
    simp only [halloc, h1, Bool.true_eq_false, if_false] at hret ⊢
    split_ifs at hret ⊢
    · simp [sysbus_init_fail]
    · simp [sysbus_init_fail]
    · simp [sysbus_init_fail]
    · exact absurd rfl hret

/-- The release on failure, at the sample bus whose name is taken. -/
theorem sysbus_init_failure_releases_witness :
    sample_bus_name_taken.talloc_zero = true ∧
    (sysbus_init 0 sample_bus_name_taken IFACE_IFP none).ret ≠ EOK ∧
    Ev.dbus_connection_unref 9 ∈ (sysbus_init 0 sample_bus_name_taken IFACE_IFP none).trace :=
  ⟨rfl, by decide,
   (sysbus_init_failure_releases 0 sample_bus_name_taken IFACE_IFP none rfl (by decide)).2.1
     9 rfl⟩

/-! ## The two bring-up paths on a failure other than ABSENT -/

theorem sample_ifp_env_no_mainloop_pre_wiring_ok :
    Ifp.pre_wiring_ok sample_ifp_env_no_mainloop := by
  simp [Ifp.pre_wiring_ok, sample_ifp_env_no_mainloop, sample_ifp_env, EOK]

/-- C11.  Let `sysbus_init` return a code that is neither `EOK` nor
`ERR_NO_SYSBUS`.  Run from `ifp_sysbus_reconnect` with `ifp_ctx->sysbus` NULL,
the handler returns that very code, sends no reply with
`sbus_request_return_and_finish`, and leaves `ifp_ctx->sysbus` NULL, for
`sysbus_init` writes `*sysbus` only when it returns `EOK`.  Run from a
bootstrap whose earlier steps succeeded, `ifp_process_init` returns `EIO`
whatever that code is. -/
theorem c11_reconnect_propagates_bootstrap_returns_EIO_code (idx : Nat) (w : ReconnectEnv)
    (dbus_req : Nat) (ctx : ifp_ctx) (hnull : ctx.sysbus = none)
    (hne : (sysbus_init idx w.sysbus IFACE_IFP none).ret ≠ EOK)
    (hnb : (sysbus_init idx w.sysbus IFACE_IFP none).ret ≠ ERR_NO_SYSBUS idx) :
    (ifp_sysbus_reconnect idx w dbus_req ctx).ret
      = (sysbus_init idx w.sysbus IFACE_IFP none).ret ∧
    (∀ q, Ev.sbus_request_return_and_finish q
      ∉ (ifp_sysbus_reconnect idx w dbus_req ctx).trace) ∧
    (ifp_sysbus_reconnect idx w dbus_req ctx).ctx.sysbus = none ∧
    (∀ (ws : SysbusEnv) (n : String) (s : Option sysbus_ctx),
      (sysbus_init idx ws n s).ret ≠ EOK → (sysbus_init idx ws n s).sysbus = s) ∧
    (∀ e : Ifp.Env, e.sysbus = w.sysbus → Ifp.pre_wiring_ok e →
      (Ifp.ifp_process_init idx e).ret = EIO) := by
  have hs := sysbus_init_sysbus_of_ne idx w.sysbus IFACE_IFP none hne
  have hrep : ∀ q, Ev.sbus_request_return_and_finish q
      ∉ (sysbus_init idx w.sysbus IFACE_IFP none).trace :=
    fun q => not_mem_sysbus_init_trace idx w.sysbus IFACE_IFP none _ rfl
  have hrun : ifp_sysbus_reconnect idx w dbus_req ctx =
      { ret := (sysbus_init idx w.sysbus IFACE_IFP none).ret,
        ctx := { ctx with sysbus := (sysbus_init idx w.sysbus IFACE_IFP none).sysbus },
        trace := [Ev.DEBUG .SSSDBG_TRACE_FUNC "Attempting to reconnect to the system bus\n"] ++
          (sysbus_init idx w.sysbus IFACE_IFP none).trace ++
          [Ev.DEBUG .SSSDBG_CRIT_FAILURE "Failed to connect to the system message bus\n"] } := by
    simp [ifp_sysbus_reconnect, hnull, hne, hnb]
  refine ⟨?_, ?_, ?_, ?_, ?_⟩
  · rw [hrun]
  · intro q
    rw [hrun]
    simp [hrep q]
  · rw [hrun]
    exact hs
  · intro ws n s h
    exact sysbus_init_sysbus_of_ne idx ws n s h
  · intro e he hpre
    exact (Ifp.ifp_process_init_sysbus_fatal idx e hpre (by rw [he]; exact hnb)
      (by rw [he]; exact hne)).1

/-- C11 at a sample bus on which `sbus_init_connection` fails with `ENOMEM`:
the handler hands back 12, the bootstrap `EIO`. -/
theorem c11_reconnect_propagates_bootstrap_returns_EIO_code_witness :
    sample_ifp_ctx.sysbus = none ∧
    (sysbus_init 0 sample_reconnect_no_mainloop.sysbus IFACE_IFP none).ret = 12 ∧
    (ifp_sysbus_reconnect 0 sample_reconnect_no_mainloop 42 sample_ifp_ctx).ret = 12 ∧
    (ifp_sysbus_reconnect 0 sample_reconnect_no_mainloop 42 sample_ifp_ctx).ctx.sysbus
      = none ∧
    (Ifp.ifp_process_init 0 sample_ifp_env_no_mainloop).ret = EIO :=
  have h := c11_reconnect_propagates_bootstrap_returns_EIO_code 0
    sample_reconnect_no_mainloop 42 sample_ifp_ctx rfl (by decide) (by decide)
  ⟨rfl, by decide, h.1.trans (by decide), h.2.2.1,
   h.2.2.2.2 sample_ifp_env_no_mainloop rfl sample_ifp_env_no_mainloop_pre_wiring_ok⟩

end Sssd
